import Mathlib

/-!
Verification of the server-authoritative combat simulation
(`src/server/src/mechanics/CombatResolver.ts`) of the `dominations`
repository, against its natural-language specification.

Modelling conventions:
* TypeScript `number` values are modelled as real numbers (`ℝ`): the
  combat code computes Euclidean distances via `Math.sqrt` and fractional
  unit positions, so its idealised arithmetic is real-valued.  `Math.floor`
  becomes `Int.floor` cast back to `ℝ`.
* The simulation tick counter only ever takes integer values obtained by
  repeated `++`, so it is modelled as `ℕ`.
* Building levels come from the persistence layer as integers; `level` is
  modelled as `ℤ` and `Math.pow(BUILDING_HP_MULTIPLIER, level - 1)` as an
  integer power (`zpow`), which agrees with `Math.pow` on all integers.
* JavaScript object references into the `buildings` array are modelled as
  indices into the buildings list; in-place mutation of a found building
  becomes `List.set` at the found index.
* Optional fields (`targetId?`, `constructionEndsAt?`) become `Option`.
  Truthiness tests on them are modelled exactly: `undefined`, `0` and the
  empty string are falsy.
* The global `generateUnitId` counter produces opaque fresh id strings;
  the id is passed to `createUnit`/`deployUnit` as an explicit parameter
  (no combat computation inspects a unit's id).
-/

noncomputable section

/-- The building types for which the `BUILDINGS` record of
`shared/constants.ts` has an entry (the combat code looks every building
up in that record, so only these types participate in battle). -/
inductive BuildingType
  | townCenter | house | farm | goldMine | oilWell
  deriving DecidableEq, Repr

/-- Unit types, from `shared/types.ts`. -/
inductive UnitType
  | warrior | archer | cavalry | catapult
  deriving DecidableEq, Repr

/-- Unit behavioural states, from `shared/types.ts`. -/
inductive UnitState
  | idle | moving | attacking | dead
  deriving DecidableEq, Repr

/-- AI targeting preference of a unit definition. -/
inductive PreferredTarget
  | building | defensive | any
  deriving DecidableEq, Repr

/-- `BuildingDefinition` of `shared/types.ts` (the fields the combat code
reads).  `isDefensive` is an optional field that no entry of `BUILDINGS`
sets, and reading an absent field yields the falsy `undefined`, so it is
modelled as `false` for every entry. -/
structure BuildingDefinition where
  width : ℝ
  height : ℝ
  hp : ℝ
  isDefensive : Bool

/-- `UnitDefinition` of `shared/types.ts` (the fields the combat code reads). -/
structure UnitDefinition where
  hp : ℝ
  damage : ℝ
  attackSpeed : ℝ
  range : ℝ
  moveSpeed : ℝ
  preferredTarget : PreferredTarget

/-- The `BUILDINGS` record of `shared/constants.ts`. -/
def BUILDINGS : BuildingType → BuildingDefinition
  | .townCenter => { width := 3, height := 3, hp := 2000, isDefensive := false }
  | .house      => { width := 2, height := 2, hp := 400,  isDefensive := false }
  | .farm       => { width := 2, height := 2, hp := 500,  isDefensive := false }
  | .goldMine   => { width := 2, height := 2, hp := 500,  isDefensive := false }
  | .oilWell    => { width := 2, height := 2, hp := 600,  isDefensive := false }

/-- The `UNITS` record of `shared/constants.ts`. -/
def UNITS : UnitType → UnitDefinition
  | .warrior  => { hp := 100, damage := 20, attackSpeed := 1, range := 1,
                   moveSpeed := 2, preferredTarget := .any }
  | .archer   => { hp := 60, damage := 15, attackSpeed := 1.5, range := 4,
                   moveSpeed := 2.5, preferredTarget := .any }
  | .cavalry  => { hp := 150, damage := 30, attackSpeed := 0.8, range := 1,
                   moveSpeed := 4, preferredTarget := .building }
  | .catapult => { hp := 80, damage := 100, attackSpeed := 0.3, range := 6,
                   moveSpeed := 1, preferredTarget := .defensive }

/-- `GRID_SIZE` of `shared/constants.ts` (a 20x20 grid). -/
def GRID_SIZE : ℝ := 20

/-- `DEPLOY_ZONE_DEPTH` of `shared/constants.ts`. -/
def DEPLOY_ZONE_DEPTH : ℝ := 2

/-- `BATTLE_TICK_RATE` of `shared/constants.ts` (ticks per second). -/
def BATTLE_TICK_RATE : ℕ := 20

/-- `BATTLE_MAX_DURATION` of `shared/constants.ts` (seconds). -/
def BATTLE_MAX_DURATION : ℕ := 180

/-- `STAR_THRESHOLDS` of `shared/constants.ts`. -/
structure StarThresholds where
  one : ℝ
  two : ℝ
  three : ℝ

def STAR_THRESHOLDS : StarThresholds := { one := 50, two := 75, three := 100 }

/-- `LOOT_PERCENTAGE` of `shared/constants.ts`. -/
def LOOT_PERCENTAGE : ℝ := 0.2

/-- `BUILDING_HP_MULTIPLIER` of `shared/constants.ts`. -/
def BUILDING_HP_MULTIPLIER : ℝ := 1.25

/-- `Resources` of `shared/types.ts`. -/
structure Resources where
  food : ℝ
  gold : ℝ
  oil : ℝ

/-- `BuildingData` of `shared/types.ts` (the fields the combat code reads). -/
structure BuildingData where
  id : String
  type : BuildingType
  row : ℝ
  col : ℝ
  level : ℤ
  constructionEndsAt : Option ℝ

/-- `BattleBuilding` of `CombatResolver.ts`: a `BuildingData` together with
battle HP tracking. -/
structure BattleBuilding where
  id : String
  type : BuildingType
  row : ℝ
  col : ℝ
  level : ℤ
  constructionEndsAt : Option ℝ
  hp : ℝ
  maxHp : ℝ
  destroyed : Bool

/-- `UnitData` of `shared/types.ts`. -/
structure UnitData where
  id : String
  type : UnitType
  hp : ℝ
  maxHp : ℝ
  state : UnitState
  row : ℝ
  col : ℝ
  targetId : Option String
  targetRow : Option ℝ
  targetCol : Option ℝ

/-- `BattleSimulation` of `CombatResolver.ts`. -/
structure BattleSimulation where
  buildings : List BattleBuilding
  units : List UnitData
  tick : ℕ
  totalBuildingHp : ℝ
  destroyedBuildingHp : ℝ
  loot : Resources
  attackerResources : Resources

/-- `calculateBuildingHp` of `CombatResolver.ts`:
`Math.floor(baseHp * Math.pow(BUILDING_HP_MULTIPLIER, level - 1))`. -/
def calculateBuildingHp (type : BuildingType) (level : ℤ) : ℝ :=
  ((⌊(BUILDINGS type).hp * BUILDING_HP_MULTIPLIER ^ (level - 1)⌋ : ℤ) : ℝ)

/-- Is a `constructionEndsAt` value truthy in JavaScript?  (`undefined`
and `0` are falsy; every other timestamp is truthy.) -/
def constructionPending (o : Option ℝ) : Bool :=
  match o with
  | none => false
  | some t => !(t = 0)

/-- `initializeBattleBuildings` of `CombatResolver.ts`: keep only completed
buildings (falsy `constructionEndsAt`) and equip them with battle HP. -/
def initBattleBuildings (buildings : List BuildingData) : List BattleBuilding :=
  (buildings.filter fun b => !constructionPending b.constructionEndsAt).map fun b =>
    let hp := calculateBuildingHp b.type b.level
    { id := b.id, type := b.type, row := b.row, col := b.col, level := b.level,
      constructionEndsAt := b.constructionEndsAt,
      hp := hp, maxHp := hp, destroyed := false }

/-- `calculateTotalBuildingHp` of `CombatResolver.ts`: sum of `maxHp`. -/
def calculateTotalBuildingHp (buildings : List BattleBuilding) : ℝ :=
  (buildings.map fun b => b.maxHp).sum

/-- `createUnit` of `CombatResolver.ts` (the fresh id produced by the
global `generateUnitId` counter is passed in explicitly). -/
def createUnit (id : String) (type : UnitType) (row col : ℝ) : UnitData :=
  let def_ := UNITS type
  { id := id, type := type, hp := def_.hp, maxHp := def_.hp,
    state := UnitState.idle, row := row, col := col,
    targetId := none, targetRow := none, targetCol := none }

/-- `isValidDeployPosition` of `CombatResolver.ts`. -/
def isValidDeployPosition (row col : ℝ) (buildings : List BattleBuilding) : Bool :=
  -- Must be within grid
  if row < 0 ∨ GRID_SIZE ≤ row ∨ col < 0 ∨ GRID_SIZE ≤ col then false
  else if ¬(row < DEPLOY_ZONE_DEPTH ∨ GRID_SIZE - DEPLOY_ZONE_DEPTH ≤ row ∨
            col < DEPLOY_ZONE_DEPTH ∨ GRID_SIZE - DEPLOY_ZONE_DEPTH ≤ col) then
    -- Must be in deploy zone (edges of the grid)
    false
  else
    -- Cannot deploy on buildings (the loop returns false on the first
    -- non-destroyed building whose footprint contains the position)
    buildings.all fun building =>
      if building.destroyed then true
      else if building.row ≤ row ∧ row < building.row + (BUILDINGS building.type).height ∧
              building.col ≤ col ∧ col < building.col + (BUILDINGS building.type).width then
        false
      else true

/-- `gridDistance` of `CombatResolver.ts`: Euclidean distance. -/
def gridDistance (r1 c1 r2 c2 : ℝ) : ℝ :=
  Real.sqrt ((r2 - r1) ^ 2 + (c2 - c1) ^ 2)

/-- `getBuildingCenter` of `CombatResolver.ts` (returned as a
`(row, col)` pair). -/
def getBuildingCenter (building : BattleBuilding) : ℝ × ℝ :=
  let def_ := BUILDINGS building.type
  (building.row + def_.height / 2, building.col + def_.width / 2)

/-- Pair each list element with its index (JavaScript array references
into `buildings` are modelled as indices). -/
def withIdx {α : Type} : List α → ℕ → List (ℕ × α)
  | [], _ => []
  | a :: as, n => (n, a) :: withIdx as (n + 1)

/-- The body of the closest-target scan loop of `findTarget`: the JS loop
starts with `closest = null, closestDist = Infinity`, so the first
candidate always replaces the initial `null`; this is the `none` case of
the accumulator. -/
def closestScanStep (unit : UnitData) (acc : Option ((ℕ × BattleBuilding) × ℝ))
    (p : ℕ × BattleBuilding) : Option ((ℕ × BattleBuilding) × ℝ) :=
  let center := getBuildingCenter p.2
  let dist := gridDistance unit.row unit.col center.1 center.2
  match acc with
  | none => some (p, dist)
  | some (q, d) => if dist < d then some (p, dist) else some (q, d)

/-- `findTarget` of `CombatResolver.ts`, returning the chosen building
together with its index in the buildings list (the JS function returns a
reference into the array). -/
def findTargetIdx (unit : UnitData) (buildings : List BattleBuilding) :
    Option (ℕ × BattleBuilding) :=
  let aliveBuildings := (withIdx buildings 0).filter fun p => !p.2.destroyed
  if aliveBuildings.length = 0 then none
  else
    let candidates :=
      if (UNITS unit.type).preferredTarget = PreferredTarget.defensive then
        let defensive := aliveBuildings.filter fun p => (BUILDINGS p.2.type).isDefensive
        if 0 < defensive.length then defensive else aliveBuildings
      else aliveBuildings
    (candidates.foldl (closestScanStep unit) none).map fun q => q.1

/-- `isInRange` of `CombatResolver.ts`: distance from the unit to the
closest edge of the building, compared with the unit's range. -/
def isInRange (unit : UnitData) (building : BattleBuilding) : Bool :=
  let def_ := UNITS unit.type
  let bDef := BUILDINGS building.type
  let closestRow := max building.row (min unit.row (building.row + bDef.height - 1))
  let closestCol := max building.col (min unit.col (building.col + bDef.width - 1))
  gridDistance unit.row unit.col closestRow closestCol ≤ def_.range

/-- `moveUnitTowards` of `CombatResolver.ts` (returns the moved unit). -/
def moveUnitTowards (unit : UnitData) (targetRow targetCol deltaTime : ℝ) : UnitData :=
  let speed := (UNITS unit.type).moveSpeed * deltaTime
  let dx := targetCol - unit.col
  let dy := targetRow - unit.row
  let dist := Real.sqrt (dx * dx + dy * dy)
  if dist ≤ speed then { unit with row := targetRow, col := targetCol }
  else { unit with col := unit.col + dx / dist * speed, row := unit.row + dy / dist * speed }

/-- `calculateDamage` of `CombatResolver.ts`. -/
def calculateDamage (unit : UnitData) (deltaTime : ℝ) : ℝ :=
  (UNITS unit.type).damage * (UNITS unit.type).attackSpeed * deltaTime

/-- The target lookup
`simulation.buildings.find(b => b.id === unit.targetId && !b.destroyed)`
of `processTick`, returning the first match together with its index. -/
def lookupTargetIdx (tid : String) : List BattleBuilding → Option (ℕ × BattleBuilding)
  | [] => none
  | b :: rest =>
    if b.id = tid ∧ b.destroyed = false then some (0, b)
    else (lookupTargetIdx tid rest).map fun p => (p.1 + 1, p.2)

/-- The target acquisition step at the top of the per-unit loop of
`processTick`: first `unit.targetId ? simulation.buildings.find(...) : null`
(a set, non-empty target id string is truthy), then `findTarget` with the
target caches updated on success.  Returns the target (with its index) and
the possibly-updated unit. -/
def existingTarget (unit : UnitData) (buildings : List BattleBuilding) :
    Option (ℕ × BattleBuilding) :=
  match unit.targetId with
  | none => none
  | some tid => if tid = "" then none else lookupTargetIdx tid buildings

def acquireTarget (unit : UnitData) (buildings : List BattleBuilding) :
    Option ((ℕ × BattleBuilding) × UnitData) :=
  match existingTarget unit buildings with
  | some ib => some (ib, unit)
  | none =>
    match findTargetIdx unit buildings with
    | none => none
    | some ib =>
      some (ib, { unit with targetId := some ib.2.id,
                            targetRow := some (getBuildingCenter ib.2).1,
                            targetCol := some (getBuildingCenter ib.2).2 })

/-- The body of the per-unit loop of `processTick` in `CombatResolver.ts`:
given the current buildings list and running destroyed-HP sum, process one
unit, returning the updated buildings, destroyed-HP sum and unit. -/
def processUnit (deltaTime : ℝ) (buildings : List BattleBuilding)
    (destroyedHp : ℝ) (unit : UnitData) : List BattleBuilding × ℝ × UnitData :=
  match acquireTarget unit buildings with
  | none =>
    -- No targets left, unit becomes idle
    (buildings, destroyedHp,
     { unit with state := UnitState.idle, targetId := none,
                 targetRow := none, targetCol := none })
  | some ((i, target), u) =>
    if isInRange u target then
      -- Attack
      let u1 := { u with state := UnitState.attacking }
      let damage := calculateDamage u1 deltaTime
      let hp1 := target.hp - damage
      if hp1 ≤ 0 then
        (buildings.set i { target with hp := 0, destroyed := true },
         destroyedHp + target.maxHp,
         { u1 with targetId := none, targetRow := none, targetCol := none })
      else
        (buildings.set i { target with hp := hp1 }, destroyedHp, u1)
    else
      -- Move towards target
      let center := getBuildingCenter target
      (buildings, destroyedHp,
       moveUnitTowards { u with state := UnitState.moving } center.1 center.2 deltaTime)

/-- The unit loop of `processTick`: the source iterates over the non-dead
units (`units.filter(u => u.state !== 'dead')`) mutating buildings and the
destroyed-HP sum in place; dead units are left untouched.  A unit never
becomes dead during the loop, so filtering up front and skipping dead
units inline are the same. -/
def processUnits (deltaTime : ℝ) :
    List BattleBuilding → ℝ → List UnitData → List BattleBuilding × ℝ × List UnitData
  | buildings, destroyedHp, [] => (buildings, destroyedHp, [])
  | buildings, destroyedHp, u :: us =>
    if u.state = UnitState.dead then
      let r := processUnits deltaTime buildings destroyedHp us
      (r.1, r.2.1, u :: r.2.2)
    else
      let s := processUnit deltaTime buildings destroyedHp u
      let r := processUnits deltaTime s.1 s.2.1 us
      (r.1, r.2.1, s.2.2 :: r.2.2)

/-- `processTick` of `CombatResolver.ts`. -/
def processTick (simulation : BattleSimulation) (deltaTime : ℝ) : BattleSimulation :=
  let r := processUnits deltaTime simulation.buildings simulation.destroyedBuildingHp
    simulation.units
  { simulation with buildings := r.1, destroyedBuildingHp := r.2.1, units := r.2.2,
                    tick := simulation.tick + 1 }

/-- `calculateDestructionPercent` of `CombatResolver.ts`. -/
def calculateDestructionPercent (simulation : BattleSimulation) : ℝ :=
  if simulation.totalBuildingHp = 0 then 100
  else ((⌊simulation.destroyedBuildingHp / simulation.totalBuildingHp * 100⌋ : ℤ) : ℝ)

/-- `calculateStars` of `CombatResolver.ts`. -/
def calculateStars (destructionPercent : ℝ) : ℕ :=
  if STAR_THRESHOLDS.three ≤ destructionPercent then 3
  else if STAR_THRESHOLDS.two ≤ destructionPercent then 2
  else if STAR_THRESHOLDS.one ≤ destructionPercent then 1
  else 0

/-- `calculateLoot` of `CombatResolver.ts`. -/
def calculateLoot (destructionPercent : ℝ) (defenderResources : Resources) : Resources :=
  let lootFactor := destructionPercent / 100 * LOOT_PERCENTAGE
  { food := ((⌊defenderResources.food * lootFactor⌋ : ℤ) : ℝ),
    gold := ((⌊defenderResources.gold * lootFactor⌋ : ℤ) : ℝ),
    oil := ((⌊defenderResources.oil * lootFactor⌋ : ℤ) : ℝ) }

/-- The tick budget `BATTLE_MAX_DURATION * BATTLE_TICK_RATE` used by
`isBattleOver` (3600 ticks). -/
def maxTicks : ℕ := BATTLE_MAX_DURATION * BATTLE_TICK_RATE

/-- `isBattleOver` of `CombatResolver.ts`. -/
def isBattleOver (simulation : BattleSimulation) : Bool :=
  if simulation.buildings.all fun b => b.destroyed then true
  else if (simulation.units.filter fun u => u.state ≠ UnitState.dead).length = 0 then true
  else if maxTicks ≤ simulation.tick then true
  else false

/-- `createSimulation` of `CombatResolver.ts`. -/
def createSimulation (defenderBuildings : List BuildingData)
    (defenderResources : Resources) : BattleSimulation :=
  let buildings := initBattleBuildings defenderBuildings
  { buildings := buildings, units := [], tick := 0,
    totalBuildingHp := calculateTotalBuildingHp buildings,
    destroyedBuildingHp := 0,
    loot := { food := 0, gold := 0, oil := 0 },
    attackerResources := defenderResources }

/-- `deployUnit` of `CombatResolver.ts` (returns the updated simulation
together with the deployed unit, `none` on rejection; the fresh unit id is
passed in explicitly, see `createUnit`). -/
def deployUnit (simulation : BattleSimulation) (id : String) (type : UnitType)
    (row col : ℝ) : BattleSimulation × Option UnitData :=
  if isValidDeployPosition row col simulation.buildings then
    let unit := createUnit id type row col
    ({ simulation with units := simulation.units ++ [unit] }, some unit)
  else (simulation, none)

theorem processTick_tick (simulation : BattleSimulation) (deltaTime : ℝ) :
    (processTick simulation deltaTime).tick = simulation.tick + 1 := rfl

theorem tick_lt_of_not_over {s : BattleSimulation} (h : isBattleOver s = false) :
    s.tick < maxTicks := by
  unfold isBattleOver at h
  split at h
  · exact absurd h (by simp)
  · split at h
    · exact absurd h (by simp)
    · split at h
      · exact absurd h (by simp)
      · omega

/-- The `deltaTime = 1 / BATTLE_TICK_RATE` used by `runFullSimulation`. -/
def tickDelta : ℝ := 1 / (BATTLE_TICK_RATE : ℕ)

/-- The `while (!isBattleOver(simulation)) processTick(...)` loop of
`runFullSimulation`, returning the final simulation state (the source
mutates `simulation` in place; the final state is what the caller
observes afterwards). -/
def runSimLoop (simulation : BattleSimulation) : BattleSimulation :=
  if isBattleOver simulation then simulation
  else runSimLoop (processTick simulation tickDelta)
termination_by maxTicks + 1 - simulation.tick
decreasing_by
  rename_i h
  have h1 := tick_lt_of_not_over (by simpa using h)
  simp only [processTick_tick]
  omega

/-- The number of iterations the `runFullSimulation` loop performs. -/
def runSimLoopCount (simulation : BattleSimulation) : ℕ :=
  if isBattleOver simulation then 0
  else runSimLoopCount (processTick simulation tickDelta) + 1
termination_by maxTicks + 1 - simulation.tick
decreasing_by
  rename_i h
  have h1 := tick_lt_of_not_over (by simpa using h)
  simp only [processTick_tick]
  omega

/-- The result record of `runFullSimulation`. -/
structure SimResult where
  destructionPercent : ℝ
  stars : ℕ
  loot : Resources

/-- `runFullSimulation` of `CombatResolver.ts`. -/
def runFullSimulation (simulation : BattleSimulation) : SimResult :=
  let final := runSimLoop simulation
  let destructionPercent := calculateDestructionPercent final
  let stars := calculateStars destructionPercent
  let loot := calculateLoot destructionPercent final.attackerResources
  { destructionPercent := destructionPercent, stars := stars, loot := loot }


/-! ### Outcome calculator claims -/

/-- Claim C8: `calculateStars` satisfies the boundary table
`stars(49)=0, stars(50)=1, stars(74)=1, stars(75)=2, stars(99)=2,
stars(100)=3`, and in general `stars(p)` is `3` for `p >= 100`, else `2`
for `p >= 75`, else `1` for `p >= 50`, else `0`; every threshold is an
inclusive lower bound. -/
theorem calculateStars_spec :
    calculateStars 49 = 0 ∧ calculateStars 50 = 1 ∧ calculateStars 74 = 1 ∧
    calculateStars 75 = 2 ∧ calculateStars 99 = 2 ∧ calculateStars 100 = 3 ∧
    ∀ p : ℝ, calculateStars p =
      if 100 ≤ p then 3 else if 75 ≤ p then 2 else if 50 ≤ p then 1 else 0 := by
  refine ⟨?_, ?_, ?_, ?_, ?_, ?_, fun p => ?_⟩ <;>
    norm_num [calculateStars, STAR_THRESHOLDS]

/-- Claim C3: `calculateDestructionPercent` returns
`floor(destroyedBuildingHp / totalBuildingHp * 100)` when the total is
non-zero, returns `100` through an explicit branch when the total is zero,
and under `0 ≤ destroyed ≤ total` its result lies in `[0, 100]`. -/
theorem calculateDestructionPercent_spec (s : BattleSimulation) :
    (s.totalBuildingHp ≠ 0 →
      calculateDestructionPercent s =
        ((⌊s.destroyedBuildingHp / s.totalBuildingHp * 100⌋ : ℤ) : ℝ)) ∧
    (s.totalBuildingHp = 0 → calculateDestructionPercent s = 100) ∧
    (0 ≤ s.destroyedBuildingHp → s.destroyedBuildingHp ≤ s.totalBuildingHp →
      0 ≤ calculateDestructionPercent s ∧ calculateDestructionPercent s ≤ 100) := by
  refine ⟨fun h => by rw [calculateDestructionPercent, if_neg h],
          fun h => by rw [calculateDestructionPercent, if_pos h],
          fun h0 h1 => ?_⟩
  by_cases h : s.totalBuildingHp = 0
  · rw [calculateDestructionPercent, if_pos h]
    norm_num
  · rw [calculateDestructionPercent, if_neg h]
    have htpos : 0 < s.totalBuildingHp := lt_of_le_of_ne (le_trans h0 h1) (Ne.symm h)
    have hx0 : 0 ≤ s.destroyedBuildingHp / s.totalBuildingHp * 100 := by positivity
    have hx1 : s.destroyedBuildingHp / s.totalBuildingHp * 100 ≤ 100 := by
      have hq : s.destroyedBuildingHp / s.totalBuildingHp ≤ 1 :=
        (div_le_one htpos).mpr h1
      nlinarith
    constructor
    · exact_mod_cast Int.le_floor.mpr (by exact_mod_cast hx0)
    · calc ((⌊s.destroyedBuildingHp / s.totalBuildingHp * 100⌋ : ℤ) : ℝ)
          ≤ s.destroyedBuildingHp / s.totalBuildingHp * 100 := Int.floor_le _
        _ ≤ 100 := hx1

/-- Concrete witness for the hypotheses of `calculateDestructionPercent_spec`
(the empty-base simulation: destroyed and total HP are both `0`). -/
theorem calculateDestructionPercent_spec_witness :
    0 ≤ calculateDestructionPercent (createSimulation [] ⟨0, 0, 0⟩) ∧
    calculateDestructionPercent (createSimulation [] ⟨0, 0, 0⟩) ≤ 100 :=
  (calculateDestructionPercent_spec (createSimulation [] ⟨0, 0, 0⟩)).2.2 le_rfl le_rfl

/-- Claim C9: `calculateLoot(0, resources)` is zero for every resource, and
for fixed (non-negative) resource totals each loot field is monotone
non-decreasing in the destruction percent over `[0, 100]`. -/
theorem calculateLoot_spec :
    (∀ res : Resources, calculateLoot 0 res = ⟨0, 0, 0⟩) ∧
    (∀ res : Resources, 0 ≤ res.food → 0 ≤ res.gold → 0 ≤ res.oil →
      ∀ p q : ℝ, 0 ≤ p → p ≤ q → q ≤ 100 →
        (calculateLoot p res).food ≤ (calculateLoot q res).food ∧
        (calculateLoot p res).gold ≤ (calculateLoot q res).gold ∧
        (calculateLoot p res).oil ≤ (calculateLoot q res).oil) := by
  constructor
  · intro res
    simp [calculateLoot]
  · intro res hf hg ho p q hp hpq hq
    have hfac : p / 100 * LOOT_PERCENTAGE ≤ q / 100 * LOOT_PERCENTAGE := by
      have h100 : p / 100 ≤ q / 100 := by linarith
      have hL : (0 : ℝ) ≤ LOOT_PERCENTAGE := by norm_num [LOOT_PERCENTAGE]
      exact mul_le_mul_of_nonneg_right h100 hL
    have key : ∀ r : ℝ, 0 ≤ r →
        ((⌊r * (p / 100 * LOOT_PERCENTAGE)⌋ : ℤ) : ℝ) ≤
        ((⌊r * (q / 100 * LOOT_PERCENTAGE)⌋ : ℤ) : ℝ) := by
      intro r hr
      have : r * (p / 100 * LOOT_PERCENTAGE) ≤ r * (q / 100 * LOOT_PERCENTAGE) :=
        mul_le_mul_of_nonneg_left hfac hr
      exact_mod_cast Int.floor_le_floor this
    exact ⟨key res.food hf, key res.gold hg, key res.oil ho⟩

/-- Concrete witness for the hypotheses of `calculateLoot_spec`
(zero resources, destruction percent going from `0` to `100`). -/
theorem calculateLoot_spec_witness :
    (calculateLoot 0 ⟨0, 0, 0⟩).food ≤ (calculateLoot 100 ⟨0, 0, 0⟩).food ∧
    (calculateLoot 0 ⟨0, 0, 0⟩).gold ≤ (calculateLoot 100 ⟨0, 0, 0⟩).gold ∧
    (calculateLoot 0 ⟨0, 0, 0⟩).oil ≤ (calculateLoot 100 ⟨0, 0, 0⟩).oil :=
  calculateLoot_spec.2 ⟨0, 0, 0⟩ le_rfl le_rfl le_rfl 0 100 le_rfl (by norm_num) le_rfl

/-! ### Deploy-position claim -/

/-- Claim C7: `isValidDeployPosition` accepts exactly the positions that
are inside the grid, lie in the deploy-zone band of depth
`DEPLOY_ZONE_DEPTH` along at least one of the four edges, and do not fall
inside the footprint of any non-destroyed building. -/
theorem isValidDeployPosition_spec (row col : ℝ) (bs : List BattleBuilding) :
    isValidDeployPosition row col bs = true ↔
      (0 ≤ row ∧ row < GRID_SIZE ∧ 0 ≤ col ∧ col < GRID_SIZE) ∧
      (row < DEPLOY_ZONE_DEPTH ∨ GRID_SIZE - DEPLOY_ZONE_DEPTH ≤ row ∨
       col < DEPLOY_ZONE_DEPTH ∨ GRID_SIZE - DEPLOY_ZONE_DEPTH ≤ col) ∧
      ∀ b ∈ bs, b.destroyed = false →
        ¬(b.row ≤ row ∧ row < b.row + (BUILDINGS b.type).height ∧
          b.col ≤ col ∧ col < b.col + (BUILDINGS b.type).width) := by
  unfold isValidDeployPosition
  by_cases h1 : row < 0 ∨ GRID_SIZE ≤ row ∨ col < 0 ∨ GRID_SIZE ≤ col
  · rw [if_pos h1]
    refine iff_of_false (by simp) ?_
    rintro ⟨⟨hr0, hrG, hc0, hcG⟩, -, -⟩
    rcases h1 with h | h | h | h <;> linarith
  · rw [if_neg h1]
    push_neg at h1
    by_cases h2 : row < DEPLOY_ZONE_DEPTH ∨ GRID_SIZE - DEPLOY_ZONE_DEPTH ≤ row ∨
        col < DEPLOY_ZONE_DEPTH ∨ GRID_SIZE - DEPLOY_ZONE_DEPTH ≤ col
    · rw [if_neg (not_not.mpr h2), List.all_eq_true]
      constructor
      · intro hall
        refine ⟨⟨h1.1, h1.2.1, h1.2.2.1, h1.2.2.2⟩, h2, fun b hb hd hin => ?_⟩
        have hcall := hall b hb
        rw [if_neg (by simp [hd] : ¬b.destroyed = true), if_pos hin] at hcall
        simp at hcall
      · rintro ⟨-, -, hnone⟩ b hb
        by_cases hdes : b.destroyed = true
        · rw [if_pos hdes]
        · rw [if_neg hdes, if_neg (hnone b hb (by simpa using hdes))]
    · rw [if_pos h2]
      refine iff_of_false (by simp) ?_
      rintro ⟨-, hband, -⟩
      exact h2 hband

/-! ### Battle-over claim -/

/-- A simulation at exactly the tick budget (3600), with a live unit and a
standing building: `isBattleOver` already reports the battle as over even
though the tick count does not strictly exceed the budget. -/
def c6sim : BattleSimulation :=
  { buildings := [{ id := "b1", type := BuildingType.farm, row := 5, col := 5, level := 1,
                    constructionEndsAt := none, hp := 500, maxHp := 500, destroyed := false }],
    units := [createUnit "u1" UnitType.warrior 0 0],
    tick := 3600, totalBuildingHp := 500, destroyedBuildingHp := 0,
    loot := ⟨0, 0, 0⟩, attackerResources := ⟨0, 0, 0⟩ }

/-- Claim C6 counterexample: at tick exactly `BATTLE_MAX_DURATION *
BATTLE_TICK_RATE = 3600`, with a live unit and a non-destroyed building,
`isBattleOver` returns `true`, yet none of the claimed conditions holds —
in particular the tick count does not *exceed* the budget (it only equals
it), so the claimed equivalence is false. -/
theorem isBattleOver_spec_counterexample :
    isBattleOver c6sim = true ∧
    ¬((∀ b ∈ c6sim.buildings, b.destroyed = true) ∨
      (∀ u ∈ c6sim.units, u.state = UnitState.dead) ∨
      maxTicks < c6sim.tick) := by
  constructor
  · simp [isBattleOver, c6sim, createUnit, maxTicks, BATTLE_MAX_DURATION, BATTLE_TICK_RATE]
  · simp [c6sim, createUnit, maxTicks, BATTLE_MAX_DURATION, BATTLE_TICK_RATE]

/-- Claim C6 (amended): `isBattleOver` returns `true` iff every building is
destroyed, or no unit in a state other than `dead` exists, or the elapsed
tick count has *reached or exceeded* (`≥`, not strictly exceeded) the
maximum-duration budget of `BATTLE_MAX_DURATION * BATTLE_TICK_RATE` ticks. -/
theorem isBattleOver_spec (s : BattleSimulation) :
    isBattleOver s = true ↔
      (∀ b ∈ s.buildings, b.destroyed = true) ∨
      (∀ u ∈ s.units, u.state = UnitState.dead) ∨
      maxTicks ≤ s.tick := by
  unfold isBattleOver
  split_ifs with h1 h2 h3
  · rw [List.all_eq_true] at h1
    simp only [true_iff]
    exact Or.inl h1
  · rw [List.length_eq_zero, List.filter_eq_nil_iff] at h2
    simp only [true_iff]
    refine Or.inr (Or.inl fun u hu => ?_)
    have := h2 u hu
    simpa using this
  · simp only [true_iff]
    exact Or.inr (Or.inr h3)
  · simp only [Bool.false_eq_true, false_iff]
    rw [List.all_eq_true] at h1
    rw [List.length_eq_zero, List.filter_eq_nil_iff] at h2
    push_neg at h2
    rintro (h | h | h)
    · exact h1 h
    · obtain ⟨u, hu, hp⟩ := h2
      exact absurd (h u hu) (by simpa using hp)
    · exact h3 h

/-! ### Termination claim -/

/-- The loop bound: `runSimLoopCount` is at most the remaining tick budget. -/
theorem runSimLoopCount_le (s : BattleSimulation) :
    runSimLoopCount s ≤ maxTicks - s.tick := by
  by_cases h : isBattleOver s = true
  · rw [runSimLoopCount, if_pos h]
    exact Nat.zero_le _
  · have hf : isBattleOver s = false := by simpa using h
    have h1 : s.tick < maxTicks := tick_lt_of_not_over hf
    rw [runSimLoopCount, if_neg h]
    have ih := runSimLoopCount_le (processTick s tickDelta)
    rw [processTick_tick] at ih
    omega
termination_by maxTicks + 1 - s.tick
decreasing_by
  have h1 := tick_lt_of_not_over hf
  simp only [processTick_tick]
  omega

/-- Claim C10: `runFullSimulation` terminates on every initial state:
`processTick` increases the tick counter by exactly `1`, `isBattleOver` is
`true` once `tick ≥ BATTLE_MAX_DURATION * BATTLE_TICK_RATE`, and the
simulation loop executes at most `max(0, budget - t0)` iterations
(`ℕ`-subtraction is truncated). -/
theorem runFullSimulation_terminates (s : BattleSimulation) (d : ℝ) :
    (processTick s d).tick = s.tick + 1 ∧
    (maxTicks ≤ s.tick → isBattleOver s = true) ∧
    runSimLoopCount s ≤ maxTicks - s.tick := by
  refine ⟨processTick_tick s d, fun h => ?_, runSimLoopCount_le s⟩
  unfold isBattleOver
  split_ifs <;> first | rfl | (rename_i h3; exact absurd h h3)

/-- An empty simulation already at the tick budget. -/
def c10sim : BattleSimulation :=
  { buildings := [], units := [], tick := 3600, totalBuildingHp := 0,
    destroyedBuildingHp := 0, loot := ⟨0, 0, 0⟩, attackerResources := ⟨0, 0, 0⟩ }

/-- Concrete witness for the hypothesis of `runFullSimulation_terminates`:
a simulation whose tick counter is at the budget. -/
theorem runFullSimulation_terminates_witness :
    (processTick c10sim 1).tick = c10sim.tick + 1 ∧ isBattleOver c10sim = true ∧
    runSimLoopCount c10sim ≤ maxTicks - c10sim.tick := by
  have h := runFullSimulation_terminates c10sim 1
  exact ⟨h.1, h.2.1 (by decide), h.2.2⟩


/-! ### Attack-range claim -/

/-- The footprint rectangle of a building, following the spec's words: the
axis-aligned rectangle with origin `(row, col)` extending `height` rows by
`width` columns — the solid region of the plane the building covers, rows
`row .. row + height`, columns `col .. col + width` in the continuous
coordinates that unit positions live in (the same region the deploy check
of `isValidDeployPosition` and the center formula of `getBuildingCenter`
use). -/
def specFootprintRect (b : BattleBuilding) : Set (ℝ × ℝ) :=
  {p | b.row ≤ p.1 ∧ p.1 ≤ b.row + (BUILDINGS b.type).height ∧
       b.col ≤ p.2 ∧ p.2 ≤ b.col + (BUILDINGS b.type).width}

/-- The rectangle whose distance the code's `isInRange` actually measures:
its clamp `max(row, min(unit.row, row + height - 1))` projects onto the
rectangle of cell ORIGINS, rows `row .. row + height - 1`, columns
`col .. col + width - 1` — one tile shorter than the footprint in each
dimension. -/
def cellOriginRect (b : BattleBuilding) : Set (ℝ × ℝ) :=
  {p | b.row ≤ p.1 ∧ p.1 ≤ b.row + ((BUILDINGS b.type).height - 1) ∧
       b.col ≤ p.2 ∧ p.2 ≤ b.col + ((BUILDINGS b.type).width - 1)}

/-- Clamping a coordinate to an interval yields the point of the interval
nearest to it. -/
theorem abs_sub_clamp_le {lo hi x t : ℝ} (h1 : lo ≤ t) (h2 : t ≤ hi) :
    |x - max lo (min x hi)| ≤ |x - t| := by
  rcases lt_or_le x lo with hx | hx
  · rw [min_eq_left (hx.le.trans (h1.trans h2)), max_eq_left hx.le,
        abs_of_nonpos (by linarith), abs_of_nonpos (by linarith)]
    linarith
  · rcases le_or_lt x hi with hx2 | hx2
    · rw [min_eq_left hx2, max_eq_right hx, sub_self, abs_zero]
      exact abs_nonneg _
    · rw [min_eq_right hx2.le, max_eq_right (h1.trans h2),
          abs_of_nonneg (by linarith), abs_of_nonneg (by linarith)]
      linarith

/-- Squared version of `abs_sub_clamp_le`. -/
theorem sq_clamp_le {lo hi x t : ℝ} (h1 : lo ≤ t) (h2 : t ≤ hi) :
    (x - max lo (min x hi)) ^ 2 ≤ (x - t) ^ 2 := by
  have h := abs_sub_clamp_le (x := x) h1 h2
  calc (x - max lo (min x hi)) ^ 2
      = |x - max lo (min x hi)| ^ 2 := (sq_abs _).symm
    _ ≤ |x - t| ^ 2 := by nlinarith [abs_nonneg (x - max lo (min x hi))]
    _ = (x - t) ^ 2 := sq_abs _

/-- Claim C4 (amended): `isInRange(unit, building)` returns `true` iff the
shortest Euclidean distance from the unit's position to the nearest point
of the rectangle of the building's CELL ORIGINS — rows
`row .. row + height - 1`, columns `col .. col + width - 1`, one tile
short of the spec's full `height`-by-`width` footprint in each dimension —
is at most the unit type's range stat.  (With the spec's footprint
rectangle the equivalence is false; see the counterexample.) -/
theorem isInRange_spec (u : UnitData) (b : BattleBuilding) :
    isInRange u b = true ↔
      sInf {d : ℝ | ∃ p ∈ cellOriginRect b, d = gridDistance u.row u.col p.1 p.2} ≤
        (UNITS u.type).range := by
  have hh : (1 : ℝ) ≤ (BUILDINGS b.type).height := by cases b.type <;> norm_num [BUILDINGS]
  have hw : (1 : ℝ) ≤ (BUILDINGS b.type).width := by cases b.type <;> norm_num [BUILDINGS]
  set cr := max b.row (min u.row (b.row + ((BUILDINGS b.type).height - 1))) with hcr
  set cc := max b.col (min u.col (b.col + ((BUILDINGS b.type).width - 1))) with hcc
  have hmem : (cr, cc) ∈ cellOriginRect b := by
    refine ⟨le_max_left _ _, max_le (by linarith) (min_le_right _ _),
            le_max_left _ _, max_le (by linarith) (min_le_right _ _)⟩
  have hleast :
      IsLeast {d : ℝ | ∃ p ∈ cellOriginRect b, d = gridDistance u.row u.col p.1 p.2}
        (gridDistance u.row u.col cr cc) := by
    constructor
    · exact ⟨(cr, cc), hmem, rfl⟩
    · rintro d ⟨p, hp, rfl⟩
      obtain ⟨hp1, hp2, hp3, hp4⟩ := hp
      unfold gridDistance
      apply Real.sqrt_le_sqrt
      have s1 := sq_clamp_le (x := u.row) hp1 hp2
      have s2 := sq_clamp_le (x := u.col) hp3 hp4
      rw [← hcr] at s1
      rw [← hcc] at s2
      have e : ∀ a c : ℝ, (a - c) ^ 2 = (c - a) ^ 2 := fun a c => by ring
      rw [e u.row cr, e u.col cc] at *
      nlinarith [s1, s2]
  rw [hleast.csInf_eq, hcr, hcc]
  simp only [isInRange, decide_eq_true_iff]
  ring_nf

/-- A level-1 2x2 farm at `(5, 5)`: footprint rows 5-7, columns 5-7 in
continuous coordinates, but cell origins only rows 5-6, columns 5-6. -/
def c4farm : BattleBuilding :=
  { id := "farm", type := BuildingType.farm, row := 5, col := 5, level := 1,
    constructionEndsAt := none, hp := 500, maxHp := 500, destroyed := false }

/-- A warrior (range 1) standing at `(7.5, 6)`, half a tile below the
farm's footprint. -/
def c4unit : UnitData := createUnit "w" UnitType.warrior (15 / 2) 6

theorem c4_inRange_false : isInRange c4unit c4farm = false := by
  simp only [isInRange, c4unit, c4farm, createUnit, UNITS, BUILDINGS]
  rw [decide_eq_false_iff_not, not_le]
  rw [min_eq_right (by norm_num : (5:ℝ) + 2 - 1 ≤ 15 / 2),
      min_eq_right (by norm_num : (5:ℝ) + 2 - 1 ≤ 6),
      max_eq_right (by norm_num : (5:ℝ) ≤ 5 + 2 - 1)]
  unfold gridDistance
  rw [show ((5:ℝ) + 2 - 1 - 15 / 2) ^ 2 + ((5:ℝ) + 2 - 1 - 6) ^ 2 = (3 / 2) ^ 2 by norm_num,
      Real.sqrt_sq (by norm_num : (0:ℝ) ≤ 3 / 2)]
  norm_num

/-- Claim C4 counterexample: with the spec's full `height`-by-`width`
footprint rectangle the claimed equivalence fails.  A warrior (range 1) at
`(7.5, 6)` is at distance `0.5` from the 2x2 farm's footprint
`[5,7] x [5,7]`, yet `isInRange` clamps the position to the cell-origin
rectangle `[5,6] x [5,6]`, measures distance `1.5` and returns `false`. -/
theorem isInRange_spec_counterexample :
    ¬ ∀ (u : UnitData) (b : BattleBuilding), (isInRange u b = true ↔
        sInf {d : ℝ | ∃ p ∈ specFootprintRect b, d = gridDistance u.row u.col p.1 p.2} ≤
          (UNITS u.type).range) := by
  intro hclaim
  have hbdd : BddBelow {d : ℝ | ∃ p ∈ specFootprintRect c4farm,
      d = gridDistance c4unit.row c4unit.col p.1 p.2} := by
    refine ⟨0, ?_⟩
    rintro d ⟨p, hp, rfl⟩
    exact Real.sqrt_nonneg _
  have hrect : ((7 : ℝ), (6 : ℝ)) ∈ specFootprintRect c4farm := by
    simp only [specFootprintRect, Set.mem_setOf_eq]
    norm_num [c4farm, BUILDINGS]
  have hmem : (1 / 2 : ℝ) ∈ {d : ℝ | ∃ p ∈ specFootprintRect c4farm,
      d = gridDistance c4unit.row c4unit.col p.1 p.2} := by
    refine ⟨(7, 6), hrect, ?_⟩
    show (1 / 2 : ℝ) = gridDistance c4unit.row c4unit.col 7 6
    rw [show c4unit.row = (15 : ℝ) / 2 from rfl, show c4unit.col = (6 : ℝ) from rfl]
    unfold gridDistance
    rw [show ((7:ℝ) - 15 / 2) ^ 2 + ((6:ℝ) - 6) ^ 2 = (1 / 2) ^ 2 by norm_num,
        Real.sqrt_sq (by norm_num : (0:ℝ) ≤ 1 / 2)]
  have hinf : sInf {d : ℝ | ∃ p ∈ specFootprintRect c4farm,
      d = gridDistance c4unit.row c4unit.col p.1 p.2} ≤ (UNITS c4unit.type).range := by
    have h1 := csInf_le hbdd hmem
    have h2 : (UNITS c4unit.type).range = 1 := rfl
    rw [h2]
    linarith
  have htrue := (hclaim c4unit c4farm).mpr hinf
  rw [c4_inRange_false] at htrue
  exact Bool.noConfusion htrue


/-! ### Reachable states and the destroyed-HP invariant -/

/-- A successful index lookup yields a list member. -/
theorem mem_of_getElem? {α : Type} : ∀ {l : List α} {i : ℕ} {a : α},
    l[i]? = some a → a ∈ l := by
  intro l
  induction l with
  | nil => intro i a h; simp at h
  | cons hd tl ih =>
    intro i a h
    cases i with
    | zero =>
      simp only [List.getElem?_cons_zero, Option.some.injEq] at h
      exact h ▸ List.mem_cons_self _ _
    | succ n =>
      simp only [List.getElem?_cons_succ] at h
      exact List.mem_cons_of_mem _ (ih h)

/-- The sum of destroyed buildings' max HP (the quantity
`destroyedBuildingHp` tracks). -/
def destroyedSum (bs : List BattleBuilding) : ℝ :=
  ((bs.filter fun b => b.destroyed).map fun b => b.maxHp).sum

theorem destroyedSum_nonneg {bs : List BattleBuilding}
    (h : ∀ b ∈ bs, 0 ≤ b.maxHp) : 0 ≤ destroyedSum bs := by
  induction bs with
  | nil => simp [destroyedSum]
  | cons hd tl ih =>
    have hh := h hd (List.mem_cons_self _ _)
    have ht := ih fun b hb => h b (List.mem_cons_of_mem _ hb)
    unfold destroyedSum at *
    rw [List.filter_cons]
    by_cases hd1 : hd.destroyed = true
    · rw [if_pos (by simpa using hd1), List.map_cons, List.sum_cons]
      linarith
    · rw [if_neg (by simpa using hd1)]
      exact ht

theorem destroyedSum_le_totalSum {bs : List BattleBuilding}
    (h : ∀ b ∈ bs, 0 ≤ b.maxHp) : destroyedSum bs ≤ calculateTotalBuildingHp bs := by
  induction bs with
  | nil => simp [destroyedSum, calculateTotalBuildingHp]
  | cons hd tl ih =>
    have hh := h hd (List.mem_cons_self _ _)
    have ht := ih fun b hb => h b (List.mem_cons_of_mem _ hb)
    unfold destroyedSum calculateTotalBuildingHp at *
    rw [List.filter_cons, List.map_cons, List.sum_cons]
    by_cases hd1 : hd.destroyed = true
    · rw [if_pos (by simpa using hd1), List.map_cons, List.sum_cons]
      linarith
    · rw [if_neg (by simpa using hd1)]
      linarith

theorem totalSum_set (bs : List BattleBuilding) (i : ℕ) (b b' : BattleBuilding)
    (hget : bs[i]? = some b) (hmax : b'.maxHp = b.maxHp) :
    calculateTotalBuildingHp (bs.set i b') = calculateTotalBuildingHp bs := by
  induction bs generalizing i with
  | nil => simp at hget
  | cons hd tl ih =>
    cases i with
    | zero =>
      simp only [List.getElem?_cons_zero, Option.some.injEq] at hget
      subst hget
      rw [List.set_cons_zero]
      unfold calculateTotalBuildingHp
      rw [List.map_cons, List.sum_cons, List.map_cons, List.sum_cons, hmax]
    | succ n =>
      simp only [List.getElem?_cons_succ] at hget
      rw [List.set_cons_succ]
      unfold calculateTotalBuildingHp at *
      rw [List.map_cons, List.sum_cons, List.map_cons, List.sum_cons, ih n hget]

theorem destroyedSum_set_destroy (bs : List BattleBuilding) (i : ℕ) (b b' : BattleBuilding)
    (hget : bs[i]? = some b) (hb : b.destroyed = false) (hb' : b'.destroyed = true)
    (hmax : b'.maxHp = b.maxHp) :
    destroyedSum (bs.set i b') = destroyedSum bs + b.maxHp := by
  induction bs generalizing i with
  | nil => simp at hget
  | cons hd tl ih =>
    cases i with
    | zero =>
      simp only [List.getElem?_cons_zero, Option.some.injEq] at hget
      subst hget
      rw [List.set_cons_zero]
      unfold destroyedSum
      rw [List.filter_cons, List.filter_cons, if_pos (by simpa using hb'),
          if_neg (by simp [hb]), List.map_cons, List.sum_cons, hmax]
      ring
    | succ n =>
      simp only [List.getElem?_cons_succ] at hget
      rw [List.set_cons_succ]
      unfold destroyedSum at *
      rw [List.filter_cons, List.filter_cons]
      by_cases hhd : hd.destroyed = true
      · rw [if_pos (by simpa using hhd), if_pos (by simpa using hhd), List.map_cons,
            List.sum_cons, List.map_cons, List.sum_cons, ih n hget]
        ring
      · rw [if_neg (by simpa using hhd), if_neg (by simpa using hhd), ih n hget]

theorem destroyedSum_set_keep (bs : List BattleBuilding) (i : ℕ) (b b' : BattleBuilding)
    (hget : bs[i]? = some b) (hdes : b'.destroyed = b.destroyed) (hmax : b'.maxHp = b.maxHp) :
    destroyedSum (bs.set i b') = destroyedSum bs := by
  induction bs generalizing i with
  | nil => simp at hget
  | cons hd tl ih =>
    cases i with
    | zero =>
      simp only [List.getElem?_cons_zero, Option.some.injEq] at hget
      subst hget
      rw [List.set_cons_zero]
      unfold destroyedSum
      rw [List.filter_cons, List.filter_cons, hdes]
      by_cases hb1 : hd.destroyed = true
      · rw [if_pos (by simpa using hb1), if_pos (by simpa using hb1), List.map_cons,
            List.sum_cons, List.map_cons, List.sum_cons, hmax]
      · rw [if_neg (by simpa using hb1), if_neg (by simpa using hb1)]
    | succ n =>
      simp only [List.getElem?_cons_succ] at hget
      rw [List.set_cons_succ]
      unfold destroyedSum at *
      rw [List.filter_cons, List.filter_cons]
      by_cases hhd : hd.destroyed = true
      · rw [if_pos (by simpa using hhd), if_pos (by simpa using hhd), List.map_cons,
            List.sum_cons, List.map_cons, List.sum_cons, ih n hget]
      · rw [if_neg (by simpa using hhd), if_neg (by simpa using hhd), ih n hget]

theorem ids_set (bs : List BattleBuilding) (i : ℕ) (b b' : BattleBuilding)
    (hget : bs[i]? = some b) (hid : b'.id = b.id) :
    (bs.set i b').map (fun x => x.id) = bs.map (fun x => x.id) := by
  induction bs generalizing i with
  | nil => simp at hget
  | cons hd tl ih =>
    cases i with
    | zero =>
      simp only [List.getElem?_cons_zero, Option.some.injEq] at hget
      subst hget
      simp [hid]
    | succ n =>
      simp only [List.getElem?_cons_succ] at hget
      simp [List.set_cons_succ, ih n hget]

theorem maxHp_nonneg_set {bs : List BattleBuilding} {i : ℕ} {b' : BattleBuilding}
    (h : ∀ x ∈ bs, 0 ≤ x.maxHp) (hb' : 0 ≤ b'.maxHp) :
    ∀ x ∈ bs.set i b', 0 ≤ x.maxHp := by
  intro x hx
  rcases List.mem_or_eq_of_mem_set hx with h1 | h1
  · exact h x h1
  · exact h1 ▸ hb'

theorem withIdx_mem {α : Type} {i : ℕ} {a : α} :
    ∀ {l : List α} {n : ℕ}, (i, a) ∈ withIdx l n → n ≤ i ∧ l[i - n]? = some a := by
  intro l
  induction l with
  | nil => intro n h; simp [withIdx] at h
  | cons hd tl ih =>
    intro n h
    rw [withIdx] at h
    rcases List.mem_cons.mp h with h1 | h1
    · obtain ⟨rfl, rfl⟩ : i = n ∧ a = hd := by simpa using h1
      simp
    · obtain ⟨hle, hget⟩ := ih h1
      refine ⟨by omega, ?_⟩
      have he : i - n = (i - (n + 1)) + 1 := by omega
      rw [he, List.getElem?_cons_succ]
      exact hget

theorem closestScan_mem {u : UnitData} :
    ∀ (l : List (ℕ × BattleBuilding)) (acc : Option ((ℕ × BattleBuilding) × ℝ))
      (r : (ℕ × BattleBuilding) × ℝ),
    l.foldl (closestScanStep u) acc = some r → acc = some r ∨ r.1 ∈ l := by
  intro l
  induction l with
  | nil => intro acc r h; exact Or.inl h
  | cons hd tl ih =>
    intro acc r h
    rw [List.foldl_cons] at h
    rcases ih _ r h with h1 | h1
    · rcases acc with _ | ⟨q, dq⟩
      · simp only [closestScanStep, Option.some.injEq] at h1
        exact Or.inr (by simp [← h1])
      · simp only [closestScanStep] at h1
        split_ifs at h1 with hc
        · simp only [Option.some.injEq] at h1
          exact Or.inr (by simp [← h1])
        · exact Or.inl h1
    · exact Or.inr (List.mem_cons_of_mem _ h1)

theorem lookupTargetIdx_spec {tid : String} :
    ∀ {bs : List BattleBuilding} {i : ℕ} {b : BattleBuilding},
    lookupTargetIdx tid bs = some (i, b) →
    bs[i]? = some b ∧ b.destroyed = false ∧ b.id = tid := by
  intro bs
  induction bs with
  | nil => intro i b h; simp [lookupTargetIdx] at h
  | cons hd tl ih =>
    intro i b h
    rw [lookupTargetIdx] at h
    split_ifs at h with hc
    · obtain ⟨rfl, rfl⟩ : 0 = i ∧ hd = b := by simpa using h
      exact ⟨by simp, hc.2, hc.1⟩
    · rw [Option.map_eq_some'] at h
      obtain ⟨⟨j, b2⟩, hj, heq⟩ := h
      obtain ⟨rfl, rfl⟩ : j + 1 = i ∧ b2 = b := by simpa using heq
      obtain ⟨h1, h2, h3⟩ := ih hj
      exact ⟨by simpa using h1, h2, h3⟩

theorem findTargetIdx_spec {u : UnitData} {bs : List BattleBuilding} {i : ℕ}
    {b : BattleBuilding} (h : findTargetIdx u bs = some (i, b)) :
    bs[i]? = some b ∧ b.destroyed = false := by
  have main : ∀ l : List (ℕ × BattleBuilding),
      (∀ p ∈ l, p ∈ (withIdx bs 0).filter fun p => !p.2.destroyed) →
      (l.foldl (closestScanStep u) none).map (fun q => q.1) = some (i, b) →
      bs[i]? = some b ∧ b.destroyed = false := by
    intro l hsub hh
    rw [Option.map_eq_some'] at hh
    obtain ⟨r, hr, hq⟩ := hh
    rcases closestScan_mem l none r hr with h2 | h2
    · simp at h2
    · have hmem := hsub r.1 h2
      rw [List.mem_filter] at hmem
      obtain ⟨hmw, hdes⟩ := hmem
      rw [hq] at hmw hdes
      obtain ⟨-, hget⟩ := withIdx_mem hmw
      exact ⟨by simpa using hget, by simpa using hdes⟩
  simp only [findTargetIdx] at h
  by_cases h1 : ((withIdx bs 0).filter fun p => !p.2.destroyed).length = 0
  · rw [if_pos h1] at h
    simp at h
  · rw [if_neg h1] at h
    by_cases h2 : (UNITS u.type).preferredTarget = PreferredTarget.defensive
    · rw [if_pos h2] at h
      by_cases h3 : 0 < (((withIdx bs 0).filter fun p => !p.2.destroyed).filter
          fun p => (BUILDINGS p.2.type).isDefensive).length
      · rw [if_pos h3] at h
        exact main _ (fun p hp => (List.mem_filter.mp hp).1) h
      · rw [if_neg h3] at h
        exact main _ (fun p hp => hp) h
    · rw [if_neg h2] at h
      exact main _ (fun p hp => hp) h

theorem existingTarget_spec {unit : UnitData} {bs : List BattleBuilding}
    {i : ℕ} {b : BattleBuilding} (h : existingTarget unit bs = some (i, b)) :
    bs[i]? = some b ∧ b.destroyed = false ∧ unit.targetId = some b.id := by
  rcases ht : unit.targetId with _ | tid
  · simp only [existingTarget, ht] at h
    exact Option.noConfusion h
  · simp only [existingTarget, ht] at h
    split_ifs at h with he
    obtain ⟨h1, h2, h3⟩ := lookupTargetIdx_spec h
    exact ⟨h1, h2, by simp [ht, h3]⟩

theorem acquireTarget_spec {unit : UnitData} {bs : List BattleBuilding}
    {i : ℕ} {b : BattleBuilding} {u' : UnitData}
    (h : acquireTarget unit bs = some ((i, b), u')) :
    bs[i]? = some b ∧ b.destroyed = false ∧ u'.targetId = some b.id := by
  rcases hE : existingTarget unit bs with _ | ⟨j, b2⟩
  · simp only [acquireTarget, hE] at h
    rcases hF : findTargetIdx unit bs with _ | ⟨k, b3⟩
    · simp only [hF] at h
      exact Option.noConfusion h
    · simp only [hF, Option.some.injEq, Prod.mk.injEq] at h
      obtain ⟨⟨rfl, rfl⟩, rfl⟩ := h
      obtain ⟨hg, hd⟩ := findTargetIdx_spec hF
      exact ⟨hg, hd, rfl⟩
  · simp only [acquireTarget, hE, Option.some.injEq, Prod.mk.injEq] at h
    obtain ⟨⟨rfl, rfl⟩, rfl⟩ := h
    obtain ⟨hg, hd, hid⟩ := existingTarget_spec hE
    exact ⟨hg, hd, hid⟩

theorem moveUnitTowards_targetId (u : UnitData) (r c d : ℝ) :
    (moveUnitTowards u r c d).targetId = u.targetId := by
  simp only [moveUnitTowards]
  split_ifs <;> rfl

theorem processUnit_none (d : ℝ) (bs : List BattleBuilding) (dhp : ℝ) (u : UnitData)
    (h : acquireTarget u bs = none) :
    processUnit d bs dhp u = (bs, dhp,
      { u with state := UnitState.idle, targetId := none,
               targetRow := none, targetCol := none }) := by
  simp only [processUnit, h]

theorem processUnit_some (d : ℝ) (bs : List BattleBuilding) (dhp : ℝ) (u : UnitData)
    {i : ℕ} {target : BattleBuilding} {u1 : UnitData}
    (h : acquireTarget u bs = some ((i, target), u1)) :
    processUnit d bs dhp u =
      if isInRange u1 target = true then
        if target.hp - calculateDamage { u1 with state := UnitState.attacking } d ≤ 0 then
          (bs.set i { target with hp := 0, destroyed := true }, dhp + target.maxHp,
           { u1 with state := UnitState.attacking, targetId := none,
                     targetRow := none, targetCol := none })
        else
          (bs.set i { target with
              hp := target.hp - calculateDamage { u1 with state := UnitState.attacking } d },
           dhp, { u1 with state := UnitState.attacking })
      else (bs, dhp,
        moveUnitTowards { u1 with state := UnitState.moving }
          (getBuildingCenter target).1 (getBuildingCenter target).2 d) := by
  simp only [processUnit, h]

theorem processUnit_spec (d : ℝ) (bs : List BattleBuilding) (dhp : ℝ) (u : UnitData)
    (hnn : ∀ b ∈ bs, 0 ≤ b.maxHp) :
    calculateTotalBuildingHp (processUnit d bs dhp u).1 = calculateTotalBuildingHp bs ∧
    (processUnit d bs dhp u).2.1 + destroyedSum bs
      = dhp + destroyedSum (processUnit d bs dhp u).1 ∧
    (∀ b ∈ (processUnit d bs dhp u).1, 0 ≤ b.maxHp) ∧
    dhp ≤ (processUnit d bs dhp u).2.1 := by
  rcases hA : acquireTarget u bs with _ | ⟨⟨i, target⟩, u1⟩
  · rw [processUnit_none d bs dhp u hA]
    exact ⟨rfl, by ring, hnn, le_refl _⟩
  · obtain ⟨hget, hdes, -⟩ := acquireTarget_spec hA
    have hmem : target ∈ bs := mem_of_getElem? hget
    have htnn : 0 ≤ target.maxHp := hnn target hmem
    rw [processUnit_some d bs dhp u hA]
    split_ifs with hR hhp <;> dsimp only
    · have hds := destroyedSum_set_destroy bs i target
        { target with hp := 0, destroyed := true } hget hdes rfl rfl
      exact ⟨totalSum_set bs i target _ hget rfl, by linarith [hds],
             maxHp_nonneg_set hnn htnn, by linarith⟩
    · have hds := destroyedSum_set_keep bs i target
        { target with hp := target.hp -
            calculateDamage { u1 with state := UnitState.attacking } d } hget rfl rfl
      exact ⟨totalSum_set bs i target _ hget rfl, by linarith [hds],
             maxHp_nonneg_set hnn htnn, le_refl _⟩
    · exact ⟨rfl, by ring, hnn, le_refl _⟩

theorem processUnit_ids (d : ℝ) (bs : List BattleBuilding) (dhp : ℝ) (u : UnitData) :
    (processUnit d bs dhp u).1.map (fun b => b.id) = bs.map (fun b => b.id) := by
  rcases hA : acquireTarget u bs with _ | ⟨⟨i, target⟩, u1⟩
  · rw [processUnit_none d bs dhp u hA]
  · obtain ⟨hget, -, -⟩ := acquireTarget_spec hA
    rw [processUnit_some d bs dhp u hA]
    split_ifs with hR hhp <;> dsimp only
    · exact ids_set bs i target _ hget rfl
    · exact ids_set bs i target _ hget rfl

theorem processUnit_targetId (d : ℝ) (bs : List BattleBuilding) (dhp : ℝ) (u : UnitData)
    {tid : String} (h : (processUnit d bs dhp u).2.2.targetId = some tid) :
    tid ∈ bs.map fun b => b.id := by
  rcases hA : acquireTarget u bs with _ | ⟨⟨i, target⟩, u1⟩
  · rw [processUnit_none d bs dhp u hA] at h
    exact Option.noConfusion h
  · obtain ⟨hget, -, htid⟩ := acquireTarget_spec hA
    have hmem : target ∈ bs := mem_of_getElem? hget
    rw [processUnit_some d bs dhp u hA] at h
    split_ifs at h with hR hhp
    · have h2 : u1.targetId = some tid := h
      rw [htid] at h2
      exact List.mem_map.mpr ⟨target, hmem, by simpa using h2⟩
    · rw [moveUnitTowards_targetId] at h
      have h2 : u1.targetId = some tid := h
      rw [htid] at h2
      exact List.mem_map.mpr ⟨target, hmem, by simpa using h2⟩

theorem processUnits_nil (d : ℝ) (bs : List BattleBuilding) (dhp : ℝ) :
    processUnits d bs dhp [] = (bs, dhp, []) := rfl

theorem processTick_buildings (s : BattleSimulation) (d : ℝ) :
    (processTick s d).buildings =
      (processUnits d s.buildings s.destroyedBuildingHp s.units).1 := rfl

theorem processTick_units (s : BattleSimulation) (d : ℝ) :
    (processTick s d).units =
      (processUnits d s.buildings s.destroyedBuildingHp s.units).2.2 := rfl

theorem processTick_destroyedHp (s : BattleSimulation) (d : ℝ) :
    (processTick s d).destroyedBuildingHp =
      (processUnits d s.buildings s.destroyedBuildingHp s.units).2.1 := rfl

theorem processUnits_cons_dead (d : ℝ) (bs : List BattleBuilding) (dhp : ℝ)
    (u : UnitData) (rest : List UnitData) (h : u.state = UnitState.dead) :
    processUnits d bs dhp (u :: rest) =
      ((processUnits d bs dhp rest).1, (processUnits d bs dhp rest).2.1,
       u :: (processUnits d bs dhp rest).2.2) := by
  rw [processUnits, if_pos h]

theorem processUnits_cons_alive (d : ℝ) (bs : List BattleBuilding) (dhp : ℝ)
    (u : UnitData) (rest : List UnitData) (h : ¬u.state = UnitState.dead) :
    processUnits d bs dhp (u :: rest) =
      ((processUnits d (processUnit d bs dhp u).1 (processUnit d bs dhp u).2.1 rest).1,
       (processUnits d (processUnit d bs dhp u).1 (processUnit d bs dhp u).2.1 rest).2.1,
       (processUnit d bs dhp u).2.2 ::
         (processUnits d (processUnit d bs dhp u).1 (processUnit d bs dhp u).2.1 rest).2.2) := by
  rw [processUnits, if_neg h]

theorem processUnits_spec (d : ℝ) :
    ∀ (us : List UnitData) (bs : List BattleBuilding) (dhp : ℝ),
    (∀ b ∈ bs, 0 ≤ b.maxHp) →
    calculateTotalBuildingHp (processUnits d bs dhp us).1 = calculateTotalBuildingHp bs ∧
    (processUnits d bs dhp us).2.1 + destroyedSum bs
      = dhp + destroyedSum (processUnits d bs dhp us).1 ∧
    (∀ b ∈ (processUnits d bs dhp us).1, 0 ≤ b.maxHp) ∧
    dhp ≤ (processUnits d bs dhp us).2.1 := by
  intro us
  induction us with
  | nil =>
    intro bs dhp hnn
    rw [processUnits_nil]
    exact ⟨rfl, by ring, hnn, le_refl _⟩
  | cons u rest ih =>
    intro bs dhp hnn
    by_cases hdead : u.state = UnitState.dead
    · rw [processUnits_cons_dead d bs dhp u rest hdead]
      exact ih bs dhp hnn
    · rw [processUnits_cons_alive d bs dhp u rest hdead]
      obtain ⟨p1, p2, p3, p4⟩ := processUnit_spec d bs dhp u hnn
      obtain ⟨h1, h2, h3, h4⟩ := ih (processUnit d bs dhp u).1 (processUnit d bs dhp u).2.1 p3
      exact ⟨by rw [h1, p1], by linarith, h3, by linarith⟩

theorem processUnits_ids (d : ℝ) :
    ∀ (us : List UnitData) (bs : List BattleBuilding) (dhp : ℝ),
    (processUnits d bs dhp us).1.map (fun b => b.id) = bs.map (fun b => b.id) := by
  intro us
  induction us with
  | nil => intro bs dhp; rfl
  | cons u rest ih =>
    intro bs dhp
    by_cases hdead : u.state = UnitState.dead
    · rw [processUnits_cons_dead d bs dhp u rest hdead]
      exact ih bs dhp
    · rw [processUnits_cons_alive d bs dhp u rest hdead]
      rw [ih (processUnit d bs dhp u).1 (processUnit d bs dhp u).2.1, processUnit_ids]

theorem processUnits_targetId (d : ℝ) :
    ∀ (us : List UnitData) (bs : List BattleBuilding) (dhp : ℝ),
    (∀ u ∈ us, ∀ tid, u.targetId = some tid → tid ∈ bs.map fun b => b.id) →
    ∀ u ∈ (processUnits d bs dhp us).2.2, ∀ tid, u.targetId = some tid →
      tid ∈ (processUnits d bs dhp us).1.map fun b => b.id := by
  intro us
  induction us with
  | nil => intro bs dhp _ u hu; simp [processUnits] at hu
  | cons u0 rest ih =>
    intro bs dhp hprev u hu tid htid
    by_cases hdead : u0.state = UnitState.dead
    · rw [processUnits_cons_dead d bs dhp u0 rest hdead] at hu ⊢
      rcases List.mem_cons.mp hu with h1 | h1
      · rw [processUnits_ids]
        exact hprev u0 (List.mem_cons_self _ _) tid (h1 ▸ htid)
      · exact ih bs dhp (fun v hv => hprev v (List.mem_cons_of_mem _ hv)) u h1 tid htid
    · rw [processUnits_cons_alive d bs dhp u0 rest hdead] at hu ⊢
      rcases List.mem_cons.mp hu with h1 | h1
      · rw [processUnits_ids, processUnit_ids]
        exact processUnit_targetId d bs dhp u0 (h1 ▸ htid)
      · refine ih (processUnit d bs dhp u0).1 (processUnit d bs dhp u0).2.1
          (fun v hv tid2 htid2 => ?_) u h1 tid htid
        rw [processUnit_ids]
        exact hprev v (List.mem_cons_of_mem _ hv) tid2 htid2

/-- Buildings produced by `initializeBattleBuildings` start with
non-negative max HP (a floor of a positive product). -/
theorem initBattleBuildings_maxHp_nonneg (defs : List BuildingData) :
    ∀ b ∈ initBattleBuildings defs, 0 ≤ b.maxHp := by
  intro b hb
  unfold initBattleBuildings at hb
  rw [List.mem_map] at hb
  obtain ⟨a, ha, rfl⟩ := hb
  show (0 : ℝ) ≤ calculateBuildingHp a.type a.level
  unfold calculateBuildingHp
  have hbase : (0 : ℝ) < (BUILDINGS a.type).hp := by cases a.type <;> norm_num [BUILDINGS]
  have hpow : (0 : ℝ) < BUILDING_HP_MULTIPLIER ^ (a.level - 1) := by
    apply zpow_pos
    norm_num [BUILDING_HP_MULTIPLIER]
  exact_mod_cast Int.floor_nonneg.mpr (le_of_lt (mul_pos hbase hpow))

/-- Buildings produced by `initializeBattleBuildings` start non-destroyed. -/
theorem initBattleBuildings_not_destroyed (defs : List BuildingData) :
    ∀ b ∈ initBattleBuildings defs, b.destroyed = false := by
  intro b hb
  unfold initBattleBuildings at hb
  rw [List.mem_map] at hb
  obtain ⟨a, ha, rfl⟩ := hb
  rfl

theorem destroyedSum_eq_zero {l : List BattleBuilding}
    (h : ∀ b ∈ l, b.destroyed = false) : destroyedSum l = 0 := by
  unfold destroyedSum
  have hnil : l.filter (fun b => b.destroyed) = [] :=
    List.filter_eq_nil_iff.mpr fun b hb => by simp [h b hb]
  rw [hnil]
  rfl

/-- The structural invariant linking the running aggregates of a
simulation to its buildings list. -/
def SimInv (s : BattleSimulation) : Prop :=
  s.totalBuildingHp = calculateTotalBuildingHp s.buildings ∧
  s.destroyedBuildingHp = destroyedSum s.buildings ∧
  ∀ b ∈ s.buildings, 0 ≤ b.maxHp

/-- Simulation states reachable from `createSimulation` by any sequence of
`deployUnit` and `processTick` calls. -/
inductive Reachable : BattleSimulation → Prop
  | create (defenderBuildings : List BuildingData) (defenderResources : Resources) :
      Reachable (createSimulation defenderBuildings defenderResources)
  | deploy {s : BattleSimulation} (h : Reachable s) (id : String) (type : UnitType)
      (row col : ℝ) : Reachable (deployUnit s id type row col).1
  | tick {s : BattleSimulation} (h : Reachable s) (deltaTime : ℝ) :
      Reachable (processTick s deltaTime)

theorem simInv_create (defs : List BuildingData) (res : Resources) :
    SimInv (createSimulation defs res) :=
  ⟨rfl, (destroyedSum_eq_zero (initBattleBuildings_not_destroyed defs)).symm,
   initBattleBuildings_maxHp_nonneg defs⟩

theorem simInv_deploy {s : BattleSimulation} (h : SimInv s) (id : String)
    (type : UnitType) (row col : ℝ) : SimInv (deployUnit s id type row col).1 := by
  unfold deployUnit
  split_ifs with hv
  · exact h
  · exact h

theorem simInv_processTick {s : BattleSimulation} (h : SimInv s) (d : ℝ) :
    SimInv (processTick s d) := by
  obtain ⟨h1, h2, h3⟩ := h
  obtain ⟨p1, p2, p3, p4⟩ := processUnits_spec d s.units s.buildings s.destroyedBuildingHp h3
  refine ⟨?_, ?_, p3⟩
  · show s.totalBuildingHp =
      calculateTotalBuildingHp (processUnits d s.buildings s.destroyedBuildingHp s.units).1
    rw [h1, p1]
  · show (processUnits d s.buildings s.destroyedBuildingHp s.units).2.1 =
      destroyedSum (processUnits d s.buildings s.destroyedBuildingHp s.units).1
    linarith [p2, h2]

theorem reachable_simInv {s : BattleSimulation} (h : Reachable s) : SimInv s := by
  induction h with
  | create defs res => exact simInv_create defs res
  | deploy h id type row col ih => exact simInv_deploy ih id type row col
  | tick h d ih => exact simInv_processTick ih d

/-- Claim C2: in every simulation state reachable from `createSimulation`
by any sequence of `deployUnit` and `processTick` calls,
`0 ≤ destroyedBuildingHp ≤ totalBuildingHp`, and no `processTick` call
(with any `deltaTime`) decreases `destroyedBuildingHp`, even when several
units attack the same building in the same tick. -/
theorem destroyedHp_invariant {s : BattleSimulation} (h : Reachable s) :
    (0 ≤ s.destroyedBuildingHp ∧ s.destroyedBuildingHp ≤ s.totalBuildingHp) ∧
    ∀ d : ℝ, s.destroyedBuildingHp ≤ (processTick s d).destroyedBuildingHp := by
  obtain ⟨h1, h2, h3⟩ := reachable_simInv h
  refine ⟨⟨?_, ?_⟩, fun d => ?_⟩
  · rw [h2]
    exact destroyedSum_nonneg h3
  · rw [h2, h1]
    exact destroyedSum_le_totalSum h3
  · have h4 := (processUnits_spec d s.units s.buildings s.destroyedBuildingHp h3).2.2.2
    exact h4

/-- Claim C5 (amended): in every reachable simulation state, every unit
whose `targetId` is set refers to a building present in the simulation's
buildings list.  (The referenced building can however be destroyed: when
two units share a target and the one processed later in a tick lands the
killing blow, the earlier unit keeps its `targetId` pointing at the now
destroyed building until the next tick; see the counterexample.) -/
theorem unit_target_exists {s : BattleSimulation} (h : Reachable s) :
    ∀ u ∈ s.units, ∀ tid, u.targetId = some tid → ∃ b ∈ s.buildings, b.id = tid := by
  have key : ∀ u ∈ s.units, ∀ tid, u.targetId = some tid →
      tid ∈ s.buildings.map fun b => b.id := by
    induction h with
    | create defs res => intro u hu; simp [createSimulation] at hu
    | @deploy s1 h id type row col ih =>
      unfold deployUnit
      split_ifs with hv
      · intro u hu tid htid
        rcases List.mem_append.mp hu with h1 | h1
        · exact ih u h1 tid htid
        · obtain rfl : u = createUnit id type row col := by simpa using h1
          simp [createUnit] at htid
      · exact ih
    | @tick s1 h d ih =>
      intro u hu tid htid
      rw [processTick_units] at hu
      rw [processTick_buildings]
      exact processUnits_targetId d s1.units s1.buildings s1.destroyedBuildingHp ih
        u hu tid htid
  intro u hu tid htid
  obtain ⟨b, hb, hid⟩ := List.mem_map.mp (key u hu tid htid)
  exact ⟨b, hb, hid⟩


/-! ### C5 counterexample: a destroyed building can stay targeted -/

def c5farmData : BuildingData :=
  { id := "farm1", type := BuildingType.farm, row := 2, col := 5, level := 1,
    constructionEndsAt := none }

/-- The farm of `c5farmData` as a battle building (level 1: 500 HP). -/
def c5farm : BattleBuilding :=
  { id := "farm1", type := BuildingType.farm, row := 2, col := 5, level := 1,
    constructionEndsAt := none, hp := 500, maxHp := 500, destroyed := false }

/-- `c5farm` after the first warrior's hit (300 damage at `deltaTime = 15`). -/
def c5farm200 : BattleBuilding :=
  { c5farm with hp := 200 }

/-- `c5farm` destroyed. -/
def c5farmDead : BattleBuilding :=
  { c5farm with hp := 0, destroyed := true }

def c5u0 : UnitData := createUnit "u0" UnitType.warrior 1 5

def c5u1 : UnitData := createUnit "u1" UnitType.warrior 1 6

/-- `c5u0` after acquiring the farm as target. -/
def c5u0t : UnitData :=
  { c5u0 with targetId := some "farm1", targetRow := some 3, targetCol := some 6 }

/-- `c5u0` at the end of the tick: attacking, still targeting the farm. -/
def c5u0f : UnitData := { c5u0t with state := UnitState.attacking }

/-- `c5u1` at the end of the tick: it landed the killing blow, so its
target was cleared. -/
def c5u1f : UnitData :=
  { c5u1 with state := UnitState.attacking, targetId := none,
              targetRow := none, targetCol := none }

def c5sim0 : BattleSimulation := createSimulation [c5farmData] ⟨0, 0, 0⟩

def c5sim1 : BattleSimulation := (deployUnit c5sim0 "u0" UnitType.warrior 1 5).1

def c5sim2 : BattleSimulation := (deployUnit c5sim1 "u1" UnitType.warrior 1 6).1

def c5sim3 : BattleSimulation := processTick c5sim2 15

theorem farm_level1_hp : calculateBuildingHp BuildingType.farm 1 = 500 := by
  unfold calculateBuildingHp BUILDINGS BUILDING_HP_MULTIPLIER
  norm_num

theorem c5sim0_eq :
    c5sim0 = ⟨[c5farm], [], 0, 500, 0, ⟨0, 0, 0⟩, ⟨0, 0, 0⟩⟩ := by
  unfold c5sim0 createSimulation initBattleBuildings calculateTotalBuildingHp
  norm_num [c5farmData, constructionPending, farm_level1_hp, c5farm]

theorem c5_deploy1_valid : isValidDeployPosition 1 5 [c5farm] = true := by
  norm_num [isValidDeployPosition, GRID_SIZE, DEPLOY_ZONE_DEPTH, c5farm, BUILDINGS]

theorem c5_deploy2_valid : isValidDeployPosition 1 6 [c5farm] = true := by
  norm_num [isValidDeployPosition, GRID_SIZE, DEPLOY_ZONE_DEPTH, c5farm, BUILDINGS]

theorem c5sim1_eq :
    c5sim1 = ⟨[c5farm], [c5u0], 0, 500, 0, ⟨0, 0, 0⟩, ⟨0, 0, 0⟩⟩ := by
  unfold c5sim1 deployUnit
  rw [c5sim0_eq]
  dsimp only
  rw [if_pos c5_deploy1_valid]
  simp [c5u0]

theorem c5sim2_eq :
    c5sim2 = ⟨[c5farm], [c5u0, c5u1], 0, 500, 0, ⟨0, 0, 0⟩, ⟨0, 0, 0⟩⟩ := by
  unfold c5sim2 deployUnit
  rw [c5sim1_eq]
  dsimp only
  rw [if_pos c5_deploy2_valid]
  simp [c5u1]

theorem c5_find_u0 : findTargetIdx c5u0 [c5farm] = some (0, c5farm) := by
  have hpref : (UNITS c5u0.type).preferredTarget = PreferredTarget.any := rfl
  simp only [findTargetIdx, withIdx, hpref]
  rw [if_neg (by norm_num [c5farm] :
    ¬((([(0, c5farm)] : List (ℕ × BattleBuilding)).filter
        fun p => !p.2.destroyed).length = 0))]
  rw [if_neg (by decide : ¬(PreferredTarget.any = PreferredTarget.defensive))]
  norm_num [c5farm, closestScanStep]

theorem c5_acquire_u0 : acquireTarget c5u0 [c5farm] = some ((0, c5farm), c5u0t) := by
  have ht : existingTarget c5u0 [c5farm] = none := rfl
  simp only [acquireTarget, ht, c5_find_u0]
  norm_num [getBuildingCenter, c5farm, BUILDINGS, c5u0t]

theorem c5_inrange_u0 : isInRange c5u0t c5farm = true := by
  norm_num [isInRange, gridDistance, UNITS, BUILDINGS, c5u0t, c5u0, createUnit, c5farm,
    min_def, max_def, Real.sqrt_one]

theorem c5_pu_u0 : processUnit 15 [c5farm] 0 c5u0 = ([c5farm200], 0, c5u0f) := by
  rw [processUnit_some 15 [c5farm] 0 c5u0 c5_acquire_u0, if_pos c5_inrange_u0,
    if_neg (by norm_num [calculateDamage, UNITS, c5u0t, c5u0, createUnit, c5farm] :
      ¬c5farm.hp - calculateDamage { c5u0t with state := UnitState.attacking } 15 ≤ 0)]
  norm_num [c5farm, c5farm200, c5u0f, calculateDamage, UNITS, c5u0t, c5u0, createUnit]

def c5u1t : UnitData :=
  { c5u1 with targetId := some "farm1", targetRow := some 3, targetCol := some 6 }

theorem c5_find_u1 : findTargetIdx c5u1 [c5farm200] = some (0, c5farm200) := by
  have hpref : (UNITS c5u1.type).preferredTarget = PreferredTarget.any := rfl
  simp only [findTargetIdx, withIdx, hpref]
  rw [if_neg (by norm_num [c5farm200, c5farm] :
    ¬((([(0, c5farm200)] : List (ℕ × BattleBuilding)).filter
        fun p => !p.2.destroyed).length = 0))]
  rw [if_neg (by decide : ¬(PreferredTarget.any = PreferredTarget.defensive))]
  norm_num [c5farm200, c5farm, closestScanStep]

theorem c5_acquire_u1 : acquireTarget c5u1 [c5farm200] = some ((0, c5farm200), c5u1t) := by
  have ht : existingTarget c5u1 [c5farm200] = none := rfl
  simp only [acquireTarget, ht, c5_find_u1]
  norm_num [getBuildingCenter, c5farm200, c5farm, BUILDINGS, c5u1t]

theorem c5_inrange_u1 : isInRange c5u1t c5farm200 = true := by
  norm_num [isInRange, gridDistance, UNITS, BUILDINGS, c5u1t, c5u1, createUnit,
    c5farm200, c5farm, min_def, max_def, Real.sqrt_one]

theorem c5_pu_u1 : processUnit 15 [c5farm200] 0 c5u1 = ([c5farmDead], 500, c5u1f) := by
  rw [processUnit_some 15 [c5farm200] 0 c5u1 c5_acquire_u1, if_pos c5_inrange_u1,
    if_pos (by norm_num [calculateDamage, UNITS, c5u1t, c5u1, createUnit, c5farm200,
      c5farm] :
      c5farm200.hp - calculateDamage { c5u1t with state := UnitState.attacking } 15 ≤ 0)]
  norm_num [c5farm, c5farm200, c5farmDead, c5u1f, c5u1t, c5u1, createUnit]

theorem c5_units_eval :
    processUnits 15 [c5farm] 0 [c5u0, c5u1] = ([c5farmDead], 500, [c5u0f, c5u1f]) := by
  rw [processUnits_cons_alive 15 [c5farm] 0 c5u0 [c5u1]
    (by simp [c5u0, createUnit]), c5_pu_u0]
  dsimp only
  rw [processUnits_cons_alive 15 [c5farm200] 0 c5u1 []
    (by simp [c5u1, createUnit]), c5_pu_u1]
  dsimp only
  rw [processUnits_nil]

theorem c5sim3_eq :
    c5sim3 = ⟨[c5farmDead], [c5u0f, c5u1f], 1, 500, 500, ⟨0, 0, 0⟩, ⟨0, 0, 0⟩⟩ := by
  unfold c5sim3 processTick
  rw [c5sim2_eq]
  dsimp only
  rw [c5_units_eval]

/-- Concrete witness for the hypothesis of `destroyedHp_invariant`: in the
two-warrior battle state `c5sim2` (two warriors standing next to a 500-HP
farm), the claimed bounds hold, and the tick in which both warriors attack
the farm and the second one lands the killing blow raises
`destroyedBuildingHp` from `0` to `500 = totalBuildingHp` — the invariant
is preserved even though two units attack the same building in that
tick. -/
theorem destroyedHp_invariant_witness :
    ((0 ≤ c5sim2.destroyedBuildingHp ∧
      c5sim2.destroyedBuildingHp ≤ c5sim2.totalBuildingHp) ∧
     c5sim2.destroyedBuildingHp ≤ (processTick c5sim2 15).destroyedBuildingHp) ∧
    c5sim2.destroyedBuildingHp = 0 ∧ c5sim2.totalBuildingHp = 500 ∧
    (processTick c5sim2 15).destroyedBuildingHp = 500 := by
  have hreach : Reachable c5sim2 :=
    Reachable.deploy (Reachable.deploy
      (Reachable.create [c5farmData] ⟨0, 0, 0⟩) "u0" UnitType.warrior 1 5)
      "u1" UnitType.warrior 1 6
  have h := destroyedHp_invariant hreach
  refine ⟨⟨h.1, h.2 15⟩, ?_, ?_, ?_⟩
  · rw [c5sim2_eq]
  · rw [c5sim2_eq]
  · show c5sim3.destroyedBuildingHp = 500
    rw [c5sim3_eq]

/-- Claim C5 counterexample: the invariant "a set `targetId` refers to a
non-destroyed building" fails on reachable states.  Two warriors deployed
next to a farm both target it; the warrior processed second lands the
killing blow in the same tick, and the first warrior's `targetId` still
refers to the now-destroyed farm when the tick completes. -/
theorem unit_target_not_destroyed_counterexample :
    ¬ ∀ s : BattleSimulation, Reachable s →
        ∀ u ∈ s.units, ∀ tid, u.targetId = some tid →
          ∃ b ∈ s.buildings, b.id = tid ∧ b.destroyed = false := by
  intro hclaim
  have hreach : Reachable c5sim3 :=
    Reachable.tick (Reachable.deploy (Reachable.deploy
      (Reachable.create [c5farmData] ⟨0, 0, 0⟩) "u0" UnitType.warrior 1 5)
      "u1" UnitType.warrior 1 6) 15
  have hmem : c5u0f ∈ c5sim3.units := by
    rw [c5sim3_eq]
    simp
  obtain ⟨b, hb, hbid, hbdes⟩ := hclaim c5sim3 hreach c5u0f hmem "farm1" rfl
  rw [c5sim3_eq] at hb
  have hbd : b = c5farmDead := by simpa using hb
  rw [hbd] at hbdes
  exact absurd hbdes (by simp [c5farmDead, c5farm])

/-- Concrete witness for the hypotheses of `unit_target_exists`: in the
two-warrior battle state `c5sim3`, the first warrior's target id still
names a building of the simulation. -/
theorem unit_target_exists_witness : ∃ b ∈ c5sim3.buildings, b.id = "farm1" := by
  have hreach : Reachable c5sim3 :=
    Reachable.tick (Reachable.deploy (Reachable.deploy
      (Reachable.create [c5farmData] ⟨0, 0, 0⟩) "u0" UnitType.warrior 1 5)
      "u1" UnitType.warrior 1 6) 15
  refine unit_target_exists hreach c5u0f ?_ "farm1" rfl
  rw [c5sim3_eq]
  simp


/-! ### C1: the end-to-end scenario -/

def c1farmData : BuildingData :=
  { id := "farm", type := BuildingType.farm, row := 5, col := 5, level := 1,
    constructionEndsAt := none }

/-- The scenario's farm as a battle building (level 1: 500 HP, footprint
rows 5-6, columns 5-6, center `(6, 6)`). -/
def c1farm : BattleBuilding :=
  { id := "farm", type := BuildingType.farm, row := 5, col := 5, level := 1,
    constructionEndsAt := none, hp := 500, maxHp := 500, destroyed := false }

def c1farmHp (h : ℝ) : BattleBuilding := { c1farm with hp := h }

def c1farmDead : BattleBuilding := { c1farm with hp := 0, destroyed := true }

/-- The deployed warrior at `(0, 10)`. -/
def c1u0 : UnitData := createUnit "w" UnitType.warrior 0 10

/-- Fraction of the way still to go towards the farm's center after `k`
movement ticks: the warrior starts at distance `√52` from the center
`(6, 6)` and covers `0.1` tiles per tick along the straight line. -/
def c1a (k : ℕ) : ℝ := 1 - k / (10 * Real.sqrt 52)

def c1row (k : ℕ) : ℝ := 6 - 6 * c1a k

def c1col (k : ℕ) : ℝ := 6 + 4 * c1a k

/-- The warrior while walking, after `k` ticks (`1 ≤ k ≤ 56`). -/
def c1uM (k : ℕ) : UnitData :=
  { id := "w", type := UnitType.warrior, hp := 100, maxHp := 100,
    state := UnitState.moving, row := c1row k, col := c1col k,
    targetId := some "farm", targetRow := some 6, targetCol := some 6 }

/-- The warrior once in range (fixed at the position reached after 56
movement ticks). -/
def c1uA : UnitData := { c1uM 56 with state := UnitState.attacking }

/-- The warrior after the farm is destroyed (target cleared). -/
def c1uF : UnitData :=
  { c1uA with targetId := none, targetRow := none, targetCol := none }

/-- The simulation state after `k` ticks of the scenario: ticks `1..56`
walk towards the farm, ticks `57..555` each deal 1 damage, tick `556`
lands the killing blow. -/
def c1state (res : Resources) (k : ℕ) : BattleSimulation :=
  if k = 0 then ⟨[c1farm], [c1u0], 0, 500, 0, ⟨0, 0, 0⟩, res⟩
  else if k ≤ 56 then ⟨[c1farm], [c1uM k], k, 500, 0, ⟨0, 0, 0⟩, res⟩
  else if k ≤ 555 then
    ⟨[c1farmHp (500 - ((k - 56 : ℕ) : ℝ))], [c1uA], k, 500, 0, ⟨0, 0, 0⟩, res⟩
  else ⟨[c1farmDead], [c1uF], k, 500, 500, ⟨0, 0, 0⟩, res⟩

theorem c1_S_sq : Real.sqrt 52 ^ 2 = 52 := Real.sq_sqrt (by norm_num)

theorem c1_S_lb : (7.2 : ℝ) < Real.sqrt 52 := by
  have h := Real.sqrt_lt_sqrt (by norm_num : (0:ℝ) ≤ 51.84) (by norm_num : (51.84:ℝ) < 52)
  rwa [show Real.sqrt 51.84 = 7.2 by
    rw [show (51.84:ℝ) = 7.2 ^ 2 by norm_num, Real.sqrt_sq (by norm_num)]] at h

theorem c1_S_ub : Real.sqrt 52 < 7.27 := by
  have h := Real.sqrt_lt_sqrt (by norm_num : (0:ℝ) ≤ 52) (by norm_num : (52:ℝ) < 52.8529)
  rwa [show Real.sqrt 52.8529 = 7.27 by
    rw [show (52.8529:ℝ) = 7.27 ^ 2 by norm_num, Real.sqrt_sq (by norm_num)]] at h

theorem c1_S_pos : (0:ℝ) < Real.sqrt 52 := lt_trans (by norm_num) c1_S_lb

theorem c1a_succ (k : ℕ) : c1a (k + 1) = c1a k - 1 / (10 * Real.sqrt 52) := by
  unfold c1a
  push_cast
  ring

theorem c1a_gt_sixth {k : ℕ} (hk : k ≤ 56) : 1/6 < c1a k := by
  unfold c1a
  have h1 : (k:ℝ) ≤ 56 := by exact_mod_cast hk
  have h2 : (k:ℝ) / (10 * Real.sqrt 52) < 5/6 := by
    rw [div_lt_iff (by positivity)]
    nlinarith [c1_S_lb]
  linarith

theorem c1a_le_one (k : ℕ) : c1a k ≤ 1 := by
  unfold c1a
  have h2 : 0 ≤ (k:ℝ) / (10 * Real.sqrt 52) := by positivity
  linarith

theorem c1a_gt_range {k : ℕ} (hk : k ≤ 55) : 3/13 < c1a k := by
  unfold c1a
  have h1 : (k:ℝ) ≤ 55 := by exact_mod_cast hk
  have h2 : (k:ℝ) / (10 * Real.sqrt 52) < 10/13 := by
    rw [div_lt_iff (by positivity)]
    nlinarith [c1_S_lb]
  linarith

theorem c1a_56_le : c1a 56 ≤ 3/13 := by
  unfold c1a
  have h2 : (10:ℝ)/13 ≤ (56:ℝ) / (10 * Real.sqrt 52) := by
    rw [le_div_iff (by positivity)]
    nlinarith [c1_S_ub]
  linarith

theorem c1row_zero : c1row 0 = 0 := by
  unfold c1row c1a
  norm_num

theorem c1col_zero : c1col 0 = 10 := by
  unfold c1col c1a
  norm_num


theorem c1_dist_to_center (k : ℕ) (hk : k ≤ 56) :
    Real.sqrt ((6 - c1col k) * (6 - c1col k) + (6 - c1row k) * (6 - c1row k)) =
      c1a k * Real.sqrt 52 := by
  have ha : 0 ≤ c1a k := le_of_lt (lt_trans (by norm_num) (c1a_gt_sixth hk))
  have harg : (6 - c1col k) * (6 - c1col k) + (6 - c1row k) * (6 - c1row k) =
      (c1a k * Real.sqrt 52) ^ 2 := by
    have h52 := c1_S_sq
    unfold c1row c1col
    nlinarith [h52]
  rw [harg]
  exact Real.sqrt_sq (by positivity)

theorem c1_edge_dist_sq (k : ℕ) :
    (5 - c1row k) ^ 2 + (6 - c1col k) ^ 2 = 52 * c1a k ^ 2 - 12 * c1a k + 1 := by
  unfold c1row c1col
  ring

/-- While more than `12/√52` tiles from the farm's center, the warrior is
out of melee range of the farm's footprint. -/
theorem c1_inRange_false {k : ℕ} (hk : k ≤ 55) (u : UnitData) (b : BattleBuilding)
    (hut : u.type = UnitType.warrior) (hur : u.row = c1row k) (huc : u.col = c1col k)
    (hbt : b.type = BuildingType.farm) (hbr : b.row = 5) (hbc : b.col = 5) :
    isInRange u b = false := by
  have ha1 : 3/13 < c1a k := c1a_gt_range hk
  have ha2 : c1a k ≤ 1 := c1a_le_one k
  have hrow_lt : c1row k < 5 := by unfold c1row; linarith
  have hrow_le : c1row k ≤ 6 := by unfold c1row; linarith
  have hcol_ge : 6 ≤ c1col k := by unfold c1col; linarith
  simp only [isInRange, hut, hur, huc, hbt, hbr, hbc, UNITS, BUILDINGS]
  rw [min_eq_left (by linarith : c1row k ≤ 5 + 2 - 1),
      max_eq_left (by linarith : c1row k ≤ 5),
      min_eq_right (by linarith : 5 + 2 - 1 ≤ c1col k),
      max_eq_right (by norm_num : (5:ℝ) ≤ 5 + 2 - 1)]
  rw [decide_eq_false_iff_not, not_le]
  unfold gridDistance
  have harg : (5 - c1row k) ^ 2 + (5 + 2 - 1 - c1col k) ^ 2 =
      52 * c1a k ^ 2 - 12 * c1a k + 1 := by
    unfold c1row c1col
    ring
  rw [harg]
  have h2 : (1:ℝ) < 52 * c1a k ^ 2 - 12 * c1a k + 1 := by nlinarith [ha1, ha2]
  calc (1:ℝ) = Real.sqrt 1 := Real.sqrt_one.symm
    _ < Real.sqrt (52 * c1a k ^ 2 - 12 * c1a k + 1) := Real.sqrt_lt_sqrt (by norm_num) h2

/-- Once within `12/√52` tiles of the farm's center, the warrior is in
melee range of the farm's footprint. -/
theorem c1_inRange_true (u : UnitData) (b : BattleBuilding)
    (hut : u.type = UnitType.warrior) (hur : u.row = c1row 56) (huc : u.col = c1col 56)
    (hbt : b.type = BuildingType.farm) (hbr : b.row = 5) (hbc : b.col = 5) :
    isInRange u b = true := by
  have ha1 : 1/6 < c1a 56 := c1a_gt_sixth (le_refl 56)
  have ha2 : c1a 56 ≤ 3/13 := c1a_56_le
  have hrow_lt : c1row 56 < 5 := by unfold c1row; linarith
  have hcol_ge : 6 ≤ c1col 56 := by unfold c1col; linarith
  simp only [isInRange, hut, hur, huc, hbt, hbr, hbc, UNITS, BUILDINGS]
  rw [min_eq_left (by linarith : c1row 56 ≤ 5 + 2 - 1),
      max_eq_left (by linarith : c1row 56 ≤ 5),
      min_eq_right (by linarith : 5 + 2 - 1 ≤ c1col 56),
      max_eq_right (by norm_num : (5:ℝ) ≤ 5 + 2 - 1)]
  rw [decide_eq_true_eq]
  unfold gridDistance
  have harg : (5 - c1row 56) ^ 2 + (5 + 2 - 1 - c1col 56) ^ 2 =
      52 * c1a 56 ^ 2 - 12 * c1a 56 + 1 := by
    unfold c1row c1col
    ring
  rw [harg]
  have h2 : 52 * c1a 56 ^ 2 - 12 * c1a 56 + 1 ≤ 1 := by nlinarith [ha1, ha2]
  calc Real.sqrt (52 * c1a 56 ^ 2 - 12 * c1a 56 + 1) ≤ Real.sqrt 1 := Real.sqrt_le_sqrt h2
    _ = 1 := Real.sqrt_one

/-- One movement tick from the position after `k` ticks lands exactly on
the position after `k + 1` ticks. -/
theorem c1_move {k : ℕ} (hk : k ≤ 55) (u : UnitData)
    (hut : u.type = UnitType.warrior) (hur : u.row = c1row k) (huc : u.col = c1col k) :
    moveUnitTowards u 6 6 tickDelta =
      { u with row := c1row (k + 1), col := c1col (k + 1) } := by
  have hS2 := c1_S_sq
  have hSpos := c1_S_pos
  have ha1 : 3/13 < c1a k := c1a_gt_range hk
  have hdelta : tickDelta = 1/20 := by
    norm_num [tickDelta, BATTLE_TICK_RATE]
  simp only [moveUnitTowards, hut, hur, huc, UNITS, hdelta]
  rw [c1_dist_to_center k (by omega)]
  rw [if_neg (by nlinarith [c1_S_lb] : ¬(c1a k * Real.sqrt 52 ≤ 2 * (1/20)))]
  have hane : c1a k ≠ 0 := by positivity
  have hSne : Real.sqrt 52 ≠ 0 := ne_of_gt hSpos
  congr 1
  · -- row component
    rw [c1row, c1row, c1a_succ]
    field_simp
    ring
  · -- col component
    rw [c1col, c1col, c1a_succ]
    field_simp
    ring


theorem c1_center (b : BattleBuilding) (hbt : b.type = BuildingType.farm)
    (hbr : b.row = 5) (hbc : b.col = 5) : getBuildingCenter b = (6, 6) := by
  simp only [getBuildingCenter, hbt, hbr, hbc, BUILDINGS]
  norm_num

theorem c1_lookup (b : BattleBuilding) (hid : b.id = "farm") (hdes : b.destroyed = false) :
    lookupTargetIdx "farm" [b] = some (0, b) := by
  rw [lookupTargetIdx, if_pos ⟨hid, hdes⟩]

theorem c1_acquire_existing (u : UnitData) (hu : u.targetId = some "farm")
    (b : BattleBuilding) (hid : b.id = "farm") (hdes : b.destroyed = false) :
    acquireTarget u [b] = some ((0, b), u) := by
  have hex : existingTarget u [b] = some (0, b) := by
    simp only [existingTarget, hu]
    rw [if_neg (by decide), c1_lookup b hid hdes]
  simp only [acquireTarget, hex]

/-- The warrior with the farm acquired as target, before its first move. -/
def c1u0t : UnitData :=
  { c1u0 with targetId := some "farm", targetRow := some 6, targetCol := some 6 }

theorem c1_find0 : findTargetIdx c1u0 [c1farm] = some (0, c1farm) := by
  have hpref : (UNITS c1u0.type).preferredTarget = PreferredTarget.any := rfl
  simp only [findTargetIdx, withIdx, hpref]
  rw [if_neg (by norm_num [c1farm] :
    ¬((([(0, c1farm)] : List (ℕ × BattleBuilding)).filter
        fun p => !p.2.destroyed).length = 0))]
  rw [if_neg (by decide : ¬(PreferredTarget.any = PreferredTarget.defensive))]
  norm_num [c1farm, closestScanStep]

theorem c1_acquire0 : acquireTarget c1u0 [c1farm] = some ((0, c1farm), c1u0t) := by
  have ht : existingTarget c1u0 [c1farm] = none := rfl
  simp only [acquireTarget, ht, c1_find0]
  norm_num [getBuildingCenter, c1farm, BUILDINGS, c1u0t]

theorem c1_damage (u : UnitData) (hut : u.type = UnitType.warrior) :
    calculateDamage u tickDelta = 1 := by
  simp only [calculateDamage, hut, UNITS]
  norm_num [tickDelta, BATTLE_TICK_RATE]

theorem c1state_zero (res : Resources) :
    c1state res 0 = ⟨[c1farm], [c1u0], 0, 500, 0, ⟨0, 0, 0⟩, res⟩ := by
  unfold c1state
  norm_num

theorem c1state_move (res : Resources) {k : ℕ} (h1 : k ≠ 0) (h2 : k ≤ 56) :
    c1state res k = ⟨[c1farm], [c1uM k], k, 500, 0, ⟨0, 0, 0⟩, res⟩ := by
  unfold c1state
  rw [if_neg h1, if_pos h2]

theorem c1state_attack (res : Resources) {k : ℕ} (h1 : 57 ≤ k) (h2 : k ≤ 555) :
    c1state res k =
      ⟨[c1farmHp (500 - ((k - 56 : ℕ) : ℝ))], [c1uA], k, 500, 0, ⟨0, 0, 0⟩, res⟩ := by
  unfold c1state
  rw [if_neg (by omega), if_neg (by omega), if_pos h2]

theorem c1state_end (res : Resources) {k : ℕ} (h1 : 556 ≤ k) :
    c1state res k = ⟨[c1farmDead], [c1uF], k, 500, 500, ⟨0, 0, 0⟩, res⟩ := by
  unfold c1state
  rw [if_neg (by omega), if_neg (by omega), if_neg (by omega)]

/-- A tick of a one-unit simulation is the per-unit step plus the tick
counter increment. -/
theorem processTick_one_unit (bs : List BattleBuilding) (dhp : ℝ) (u : UnitData)
    (tick : ℕ) (total : ℝ) (lo res : Resources) (hu : ¬u.state = UnitState.dead) :
    processTick ⟨bs, [u], tick, total, dhp, lo, res⟩ tickDelta =
      ⟨(processUnit tickDelta bs dhp u).1, [(processUnit tickDelta bs dhp u).2.2],
       tick + 1, total, (processUnit tickDelta bs dhp u).2.1, lo, res⟩ := by
  unfold processTick
  dsimp only
  rw [processUnits_cons_alive tickDelta bs dhp u [] hu, processUnits_nil]


theorem c1_step_zero (res : Resources) :
    processTick (c1state res 0) tickDelta = c1state res 1 := by
  rw [c1state_zero, c1state_move res (by omega) (by omega),
      processTick_one_unit _ _ _ _ _ _ _ (by simp [c1u0, createUnit])]
  rw [processUnit_some _ _ _ _ c1_acquire0]
  rw [if_neg (by simp [c1_inRange_false (k := 0) (by omega) c1u0t c1farm rfl
        (by simp [c1u0t, c1u0, createUnit, c1row_zero])
        (by simp [c1u0t, c1u0, createUnit, c1col_zero]) rfl rfl rfl])]
  rw [c1_center c1farm rfl rfl rfl]
  dsimp only
  rw [c1_move (k := 0) (by omega) { c1u0t with state := UnitState.moving } rfl
      (by simp [c1u0t, c1u0, createUnit, c1row_zero])
      (by simp [c1u0t, c1u0, createUnit, c1col_zero])]
  simp [c1uM, c1u0t, c1u0, createUnit, UNITS]

theorem c1_step_move (res : Resources) {k : ℕ} (h1 : 1 ≤ k) (h2 : k ≤ 55) :
    processTick (c1state res k) tickDelta = c1state res (k + 1) := by
  rw [c1state_move res (by omega) (by omega), c1state_move res (by omega) (by omega),
      processTick_one_unit _ _ _ _ _ _ _ (by simp [c1uM])]
  rw [processUnit_some _ _ _ _ (c1_acquire_existing (c1uM k) rfl c1farm rfl rfl)]
  rw [if_neg (by simp [c1_inRange_false h2 (c1uM k) c1farm rfl rfl rfl rfl rfl rfl])]
  rw [c1_center c1farm rfl rfl rfl]
  dsimp only
  rw [c1_move h2 { c1uM k with state := UnitState.moving } rfl rfl rfl]
  simp [c1uM]

theorem c1_step_56 (res : Resources) :
    processTick (c1state res 56) tickDelta = c1state res 57 := by
  rw [c1state_move res (by omega) (by omega), c1state_attack res (by omega) (by omega),
      processTick_one_unit _ _ _ _ _ _ _ (by simp [c1uM])]
  rw [processUnit_some _ _ _ _ (c1_acquire_existing (c1uM 56) rfl c1farm rfl rfl)]
  rw [if_pos (c1_inRange_true (c1uM 56) c1farm rfl rfl rfl rfl rfl rfl)]
  rw [c1_damage { c1uM 56 with state := UnitState.attacking } rfl]
  rw [if_neg (by norm_num [c1farm] : ¬(c1farm.hp - 1 ≤ 0))]
  simp only [List.set_cons_zero]
  norm_num [c1farmHp, c1farm, c1uA]

theorem c1_step_attack (res : Resources) {k : ℕ} (h1 : 57 ≤ k) (h2 : k ≤ 554) :
    processTick (c1state res k) tickDelta = c1state res (k + 1) := by
  have hc : ((k - 56 : ℕ) : ℝ) ≤ 498 := by
    have h3 : (k - 56 : ℕ) ≤ 498 := by omega
    exact_mod_cast h3
  have hcast : ((k + 1 - 56 : ℕ) : ℝ) = ((k - 56 : ℕ) : ℝ) + 1 := by
    have h3 : (k + 1 - 56 : ℕ) = (k - 56 : ℕ) + 1 := by omega
    rw [h3]
    push_cast
    ring
  rw [c1state_attack res (by omega) (by omega), c1state_attack res (by omega) (by omega),
      processTick_one_unit _ _ _ _ _ _ _ (by simp [c1uA, c1uM])]
  rw [processUnit_some _ _ _ _
      (c1_acquire_existing c1uA rfl (c1farmHp (500 - ((k - 56 : ℕ) : ℝ))) rfl rfl)]
  rw [if_pos (c1_inRange_true c1uA (c1farmHp (500 - ((k - 56 : ℕ) : ℝ)))
      rfl rfl rfl rfl rfl rfl)]
  rw [c1_damage { c1uA with state := UnitState.attacking } rfl]
  rw [if_neg (by
    show ¬((c1farmHp (500 - ((k - 56 : ℕ) : ℝ))).hp - 1 ≤ 0)
    have hhp : (c1farmHp (500 - ((k - 56 : ℕ) : ℝ))).hp = 500 - ((k - 56 : ℕ) : ℝ) := rfl
    rw [hhp]
    linarith)]
  simp only [List.set_cons_zero]
  rw [hcast]
  norm_num [c1farmHp, c1farm, c1uA]
  ring

theorem c1_step_555 (res : Resources) :
    processTick (c1state res 555) tickDelta = c1state res 556 := by
  rw [c1state_attack res (by omega) (by omega), c1state_end res (by omega),
      processTick_one_unit _ _ _ _ _ _ _ (by simp [c1uA, c1uM])]
  rw [processUnit_some _ _ _ _
      (c1_acquire_existing c1uA rfl (c1farmHp (500 - ((555 - 56 : ℕ) : ℝ))) rfl rfl)]
  rw [if_pos (c1_inRange_true c1uA (c1farmHp (500 - ((555 - 56 : ℕ) : ℝ)))
      rfl rfl rfl rfl rfl rfl)]
  rw [c1_damage { c1uA with state := UnitState.attacking } rfl]
  rw [if_pos (by
    show (c1farmHp (500 - ((555 - 56 : ℕ) : ℝ))).hp - 1 ≤ 0
    have hhp : (c1farmHp (500 - ((555 - 56 : ℕ) : ℝ))).hp = 500 - ((555 - 56 : ℕ) : ℝ) := rfl
    rw [hhp]
    norm_num)]
  simp only [List.set_cons_zero]
  norm_num [c1farmHp, c1farm, c1farmDead, c1uF, c1uA]

/-- One tick of the scenario advances the closed-form state by one. -/
theorem c1_step (res : Resources) {k : ℕ} (hk : k ≤ 555) :
    processTick (c1state res k) tickDelta = c1state res (k + 1) := by
  by_cases h0 : k = 0
  · rw [h0]
    exact c1_step_zero res
  · by_cases h55 : k ≤ 55
    · exact c1_step_move res (by omega) h55
    · by_cases h56 : k = 56
      · rw [h56]
        exact c1_step_56 res
      · by_cases h554 : k ≤ 554
        · exact c1_step_attack res (by omega) h554
        · have h555 : k = 555 := by omega
          rw [h555]
          exact c1_step_555 res


/-- Iterates `processTick` at the loop's `deltaTime`. -/
def tickIter : ℕ → BattleSimulation → BattleSimulation
  | 0, s => s
  | n + 1, s => tickIter n (processTick s tickDelta)

theorem c1_iter (res : Resources) :
    ∀ (n k : ℕ), k + n ≤ 556 → tickIter n (c1state res k) = c1state res (k + n) := by
  intro n
  induction n with
  | zero => intro k h; rfl
  | succ m ih =>
    intro k h
    show tickIter m (processTick (c1state res k) tickDelta) = _
    rw [c1_step res (by omega), ih (k + 1) (by omega)]
    congr 1
    omega

theorem isBattleOver_false_of (s : BattleSimulation)
    (hb : ∃ b ∈ s.buildings, b.destroyed = false)
    (hu : ∃ u ∈ s.units, ¬u.state = UnitState.dead)
    (ht : s.tick < maxTicks) : isBattleOver s = false := by
  obtain ⟨b, hbm, hbd⟩ := hb
  obtain ⟨u, hum, hus⟩ := hu
  have h1 : ¬(s.buildings.all fun b => b.destroyed) = true := by
    rw [List.all_eq_true]
    push_neg
    exact ⟨b, hbm, by simp [hbd]⟩
  have h2 : ¬((s.units.filter fun u => u.state ≠ UnitState.dead).length = 0) := by
    intro h0
    rw [List.length_eq_zero] at h0
    have hmem : u ∈ s.units.filter fun u => u.state ≠ UnitState.dead :=
      List.mem_filter.mpr ⟨hum, by simpa using hus⟩
    rw [h0] at hmem
    simp at hmem
  unfold isBattleOver
  rw [if_neg h1, if_neg h2, if_neg (by omega)]

theorem c1_not_over (res : Resources) {k : ℕ} (hk : k ≤ 555) :
    isBattleOver (c1state res k) = false := by
  have hmax : maxTicks = 3600 := rfl
  apply isBattleOver_false_of
  · unfold c1state
    split_ifs with h1 h2
    · exact ⟨c1farm, by simp, rfl⟩
    · exact ⟨c1farm, by simp, rfl⟩
    · exact ⟨c1farmHp (500 - ((k - 56 : ℕ) : ℝ)), by simp, rfl⟩
  · unfold c1state
    split_ifs with h1 h2
    · exact ⟨c1u0, by simp, by simp [c1u0, createUnit]⟩
    · exact ⟨c1uM k, by simp, by simp [c1uM]⟩
    · exact ⟨c1uA, by simp, by simp [c1uA, c1uM]⟩
  · unfold c1state
    split_ifs with h1 h2 <;> (dsimp only; rw [hmax]; omega)

theorem c1_over (res : Resources) : isBattleOver (c1state res 556) = true := by
  rw [c1state_end res (by omega)]
  unfold isBattleOver
  rw [if_pos (by simp [c1farmDead])]

theorem runSimLoop_over {s : BattleSimulation} (h : isBattleOver s = true) :
    runSimLoop s = s := by
  rw [runSimLoop, if_pos h]

theorem runSimLoop_skip : ∀ (n : ℕ) (s : BattleSimulation),
    (∀ j < n, isBattleOver (tickIter j s) = false) →
    runSimLoop s = runSimLoop (tickIter n s) := by
  intro n
  induction n with
  | zero => intro s _; rfl
  | succ m ih =>
    intro s h
    have h0 : isBattleOver s = false := h 0 (by omega)
    rw [runSimLoop, if_neg (by simp [h0])]
    exact ih (processTick s tickDelta) fun j hj => h (j + 1) (by omega)

theorem c1_deploy_valid : isValidDeployPosition 0 10 [c1farm] = true := by
  norm_num [isValidDeployPosition, GRID_SIZE, DEPLOY_ZONE_DEPTH, c1farm, BUILDINGS]

theorem c1_createSim (res : Resources) :
    createSimulation [c1farmData] res = ⟨[c1farm], [], 0, 500, 0, ⟨0, 0, 0⟩, res⟩ := by
  unfold createSimulation initBattleBuildings calculateTotalBuildingHp
  norm_num [c1farmData, constructionPending, farm_level1_hp, c1farm]

theorem c1sim_init (res : Resources) :
    (deployUnit (createSimulation [c1farmData] res) "w" UnitType.warrior 0 10).1 =
      c1state res 0 := by
  rw [c1state_zero]
  unfold deployUnit
  rw [c1_createSim res]
  dsimp only
  rw [if_pos c1_deploy_valid]
  simp [c1u0]

theorem c1_loop (res : Resources) : runSimLoop (c1state res 0) = c1state res 556 := by
  rw [runSimLoop_skip 556 (c1state res 0) (fun j hj => by
    have hi := c1_iter res j 0 (by omega)
    rw [Nat.zero_add] at hi
    rw [hi]
    exact c1_not_over res (by omega))]
  have hi := c1_iter res 556 0 (by omega)
  rw [Nat.zero_add] at hi
  rw [hi]
  exact runSimLoop_over (c1_over res)

/-- Claim C1: with deploy-zone depth 2, a single level-1 2x2 farm at
`(5, 5)` with 500 HP, and one warrior (damage 20, attack rate 1/s, range
1, move speed 2) deployed at `(0, 10)` (a valid deploy position on the
code's `GRID_SIZE` = 20 grid), running the tick loop at 20 ticks per
second until the battle is over yields `destructionPercent = 100`,
`stars = 3`, `loot = floor(resource * 1.0 * LOOT_PERCENTAGE)` for each
resource type, and a final `destroyedBuildingHp` of 500. -/
theorem endToEnd_scenario (res : Resources) :
    (deployUnit (createSimulation [c1farmData] res) "w" UnitType.warrior 0 10).2 ≠
      none ∧
    runFullSimulation
        (deployUnit (createSimulation [c1farmData] res) "w" UnitType.warrior 0 10).1 =
      ⟨100, 3, ⟨((⌊res.food * 1 * LOOT_PERCENTAGE⌋ : ℤ) : ℝ),
                ((⌊res.gold * 1 * LOOT_PERCENTAGE⌋ : ℤ) : ℝ),
                ((⌊res.oil * 1 * LOOT_PERCENTAGE⌋ : ℤ) : ℝ)⟩⟩ ∧
    (runSimLoop
        (deployUnit (createSimulation [c1farmData] res) "w" UnitType.warrior 0 10).1
      ).destroyedBuildingHp = 500 := by
  have hfin : runSimLoop (deployUnit (createSimulation [c1farmData] res) "w"
      UnitType.warrior 0 10).1 = c1state res 556 := by
    rw [c1sim_init res]
    exact c1_loop res
  refine ⟨?_, ?_, ?_⟩
  · unfold deployUnit
    rw [c1_createSim res]
    dsimp only
    rw [if_pos c1_deploy_valid]
    simp
  · have hdp : calculateDestructionPercent
        ⟨[c1farmDead], [c1uF], 556, 500, 500, ⟨0, 0, 0⟩, res⟩ = 100 := by
      unfold calculateDestructionPercent
      rw [if_neg (by norm_num)]
      norm_num
    have hst : calculateStars 100 = 3 := by
      norm_num [calculateStars, STAR_THRESHOLDS]
    simp only [runFullSimulation]
    rw [hfin, c1state_end res (by omega), hdp, hst]
    norm_num [calculateLoot, LOOT_PERCENTAGE]
  · rw [hfin, c1state_end res (by omega)]

end
